import Mathlib

/-!
# Verification of the procedural building generator (`rekt` namespace)

This file gives a shallow embedding, in Lean 4, of the procedural building
generation pipeline of the repository (files `src/geom_utils.h`,
`src/building_utils.h`, `src/prob_utils.h`, `src/yocto_utils.h`), and proves
or refutes the frozen specification claims about it.

Modelling conventions:

* C++ `float` arithmetic is modelled over an arbitrary linear ordered field
  `F` (instantiated with `ℝ` in the theorems, and with `ℚ` where a concrete
  decidable evaluation is wanted).  Rounding of IEEE floats is not modelled;
  all stated properties are about the exact-arithmetic content of the code.
* The C library math functions (`cosf`, `sinf`, `tanf`, `sqrtf`, `atan2f`)
  are external to the repository.  They are passed to the embedded
  definitions as an explicit bundle `MathFns F`; the theorems instantiate
  the bundle at `ℝ` with `Real.cos`, `Real.sin`, `Real.tan`, `Real.sqrt`
  and an `atan2` built from `Real.arctan`.
* The polygon-offsetting service (`expand_polygon` / `offset_polygon`), the
  constrained-Delaunay triangulation backend (poly2tri's `CDT`), and the
  RNG backend (`ygl::next_rand1f`) are external collaborators; they are
  modelled as explicit function parameters (for the RNG: an explicit stream
  of draws with a position index).
* Fallible C++ code (`throw`) is modelled with `Except String`.
* `unsigned` arithmetic is modelled on `ℕ` with an explicit `% 2^32` where
  the code can underflow (`num_floors - 1`).
* A handful of small helpers are called by the sources but their definition
  files are not part of the given sources (`for_sides`, `get_size`,
  `rotate_y`, `merge_shapes`, `make_instance`, the single-point `to_3d`
  overload).  Those are modelled from the specification text; each such
  definition carries a doc comment starting with `Modelled from the spec:`.
-/

set_option linter.unusedSectionVars false

set_option linter.unusedVariables false

namespace rekt

variable {F : Type} [LinearOrderedField F] [FloorRing F]

/-- Two-dimensional point/vector (`ygl::vec2f`): a plan-view position. -/
structure Vec2 (F : Type) where
  x : F
  y : F
deriving DecidableEq, Repr

/-- Three-dimensional point/vector (`ygl::vec3f`); `y` is the vertical axis. -/
structure Vec3 (F : Type) where
  x : F
  y : F
  z : F
deriving DecidableEq, Repr

instance : Add (Vec2 F) := ⟨fun a b => ⟨a.x + b.x, a.y + b.y⟩⟩

instance : Sub (Vec2 F) := ⟨fun a b => ⟨a.x - b.x, a.y - b.y⟩⟩

instance : Neg (Vec2 F) := ⟨fun a => ⟨-a.x, -a.y⟩⟩

instance : HMul (Vec2 F) F (Vec2 F) := ⟨fun a k => ⟨a.x * k, a.y * k⟩⟩

instance : HDiv (Vec2 F) F (Vec2 F) := ⟨fun a k => ⟨a.x / k, a.y / k⟩⟩

instance : Add (Vec3 F) := ⟨fun a b => ⟨a.x + b.x, a.y + b.y, a.z + b.z⟩⟩

instance : Sub (Vec3 F) := ⟨fun a b => ⟨a.x - b.x, a.y - b.y, a.z - b.z⟩⟩

instance : HMul (Vec3 F) F (Vec3 F) := ⟨fun a k => ⟨a.x * k, a.y * k, a.z * k⟩⟩

instance : HDiv (Vec3 F) F (Vec3 F) := ⟨fun a k => ⟨a.x / k, a.y / k, a.z / k⟩⟩

/-- Bundle of the C math library functions consumed by the geometry code.
`piF` stands for the constant `rekt::pi`. -/
structure MathFns (F : Type) where
  cosF : F → F
  sinF : F → F
  tanF : F → F
  sqrtF : F → F
  atan2F : F → F → F
  piF : F

/-- The `atan2` function on the reals, matching the C `atan2f` contract on
its non-degenerate quadrants (used to instantiate `MathFns.atan2F`). -/
noncomputable def atan2R (y x : ℝ) : ℝ :=
  if 0 < x then Real.arctan (y / x)
  else if x < 0 then
    (if 0 ≤ y then Real.arctan (y / x) + Real.pi else Real.arctan (y / x) - Real.pi)
  else
    (if 0 < y then Real.pi / 2 else if y < 0 then -(Real.pi / 2) else 0)

/-- The real instantiation of the math-function bundle. -/
noncomputable def realFns : MathFns ℝ :=
  ⟨Real.cos, Real.sin, Real.tan, Real.sqrt, atan2R, Real.pi⟩

/-- Euclidean norm of a 2D vector (`ygl::length`), via the `sqrtF` oracle. -/
def length2 (M : MathFns F) (v : Vec2 F) : F :=
  M.sqrtF (v.x * v.x + v.y * v.y)

/-- Normalisation of a 2D vector (`ygl::normalize`). -/
def normalize2 (M : MathFns F) (v : Vec2 F) : Vec2 F :=
  v / length2 M v

/-- Euclidean norm of a 3D vector (`ygl::length`). -/
def length3 (M : MathFns F) (v : Vec3 F) : F :=
  M.sqrtF (v.x * v.x + v.y * v.y + v.z * v.z)

/-- Normalisation of a 3D vector (`ygl::normalize`). -/
def normalize3 (M : MathFns F) (v : Vec3 F) : Vec3 F :=
  v / length3 M v

/-- Conversion of a value to `bool` as C++ does for arithmetic types:
nonzero converts to `true`.  The call sites in `building_utils.h` pass a
`float` base angle where `make_regular_polygon` expects `bool xy_aligned`,
so this conversion is applied there. -/
def cppBool (x : F) : Bool := if x = 0 then false else true

/-- C++ `int(x)` cast for a floating value: truncation toward zero. -/
def cppInt (x : F) : ℤ := if 0 ≤ x then ⌊x⌋ else -⌊-x⌋

/-- Modular decrement of a C++ `unsigned`: models `num_floors - 1` with
wrap-around at `2^32`. -/
def usub1 (n : ℕ) : ℕ := (n + 4294967295) % 4294967296

/-- State of the external RNG service (`ygl::rng_pcg32`): the stream of
`next_rand1f` draws it will produce, with the current position. -/
structure Rng (F : Type) where
  stream : ℕ → F
  idx : ℕ

/-- One draw of `ygl::next_rand1f`: returns the next value of the stream and
advances the state. -/
def next_rand1f (r : Rng F) : F × Rng F :=
  (r.stream r.idx, ⟨r.stream, r.idx + 1⟩)

/-- The `rekt::bernoulli` helper (`prob_utils.h`).  Note the comparison in
the source is `ygl::next_rand1f(rng) > p`: the function returns `true` with
probability `1 - p`, although its own doc comment promises probability `p`
(the earlier revision of `prob_utils.h` in the repository used `<= p`). -/
def bernoulli (p : F) (r : Rng F) : Except String (Bool × Rng F) :=
  if p < 0 ∨ p > 1 then .error "Invalid probability value."
  else
    let d := next_rand1f r
    .ok (d.1 > p, d.2)

/-- Mesh data (`ygl::shape`): vertex positions and faces.  Per-vertex
normals are computed by the external `ygl::compute_normals` utility and are
not modelled (no claim concerns them); materials live on instances here. -/
structure Shape (F : Type) where
  pos : List (Vec3 F) := []
  triangles : List (ℤ × ℤ × ℤ) := []
  quads : List (ℤ × ℤ × ℤ × ℤ) := []
deriving DecidableEq, Repr

/-- Lookup of a vertex position by a C++ `int` index (out-of-range access is
undefined behaviour in the source; the model returns the origin). -/
def posAt (l : List (Vec3 F)) (i : ℤ) : Vec3 F := l.getD i.toNat ⟨0, 0, 0⟩

/-- The `rekt::centroid` of 2D points (`geom_utils.h`): their average. -/
def centroid (points : List (Vec2 F)) : Vec2 F :=
  (points.foldl (· + ·) ⟨0, 0⟩) / (points.length : F)

/-- The `rekt::to_2d` conversion: discards the `y` component of 3D points. -/
def to_2d (points : List (Vec3 F)) : List (Vec2 F) :=
  points.map fun p => ⟨p.x, p.z⟩

/-- The `rekt::to_3d` conversion of 2D points `(x,z)` to 3D `(x,y,-z)`;
`z` is flipped by default to preserve clockwiseness (source comment). -/
def to_3d (points : List (Vec2 F)) (y : F := 0) (flip_z : Bool := true) :
    List (Vec3 F) :=
  points.map fun p => ⟨p.x, y, if flip_z then -p.y else p.y⟩

/-- Modelled from the spec: the single-point `to_3d` overload used by
`make_windows` and the pyramid roof (its definition file is not among the
given sources).  It mirrors the list version of `to_3d`: the 2D point
`(x,y)` is injected at height `y3` as `(x, y3, -y)`. -/
def to_3dPoint (p : Vec2 F) (y3 : F := 0) : Vec3 F := ⟨p.x, y3, -p.y⟩

/-- The `rekt::get_angle` helper (`yocto_utils.h`): angle between a 2D
vector and the x axis, via `atan2f`. -/
def get_angle (M : MathFns F) (v : Vec2 F) : F := M.atan2F v.y v.x

/-- The `rekt::displace` helper (`geom_utils.h`): moves all points by a
fixed displacement. -/
def displace (points : List (Vec3 F)) (d : Vec3 F) : List (Vec3 F) :=
  points.map (· + d)

/-- The `rekt::make_regular_polygon` function (`geom_utils.h`).  Its third
parameter is the **boolean** `xy_aligned` (there is no base-angle
parameter): the first point is at angle `0` when not aligned, else at
`angle_step / 2`.  Throws when `num_sides <= 2`. -/
def make_regular_polygon (M : MathFns F) (num_sides : ℤ) (radius : F := 1)
    (xy_aligned : Bool := false) : Except String (List (Vec2 F)) :=
  if num_sides ≤ 2 then .error "A polygon must have at least 3 sides."
  else
    let angle_step := 2 * M.piF / (num_sides : F)
    let angle0 := if xy_aligned then angle_step / 2 else 0
    .ok <| (List.range num_sides.toNat).map fun i : ℕ =>
      let angle := (i : F) * angle_step + angle0
      ⟨M.cosF angle * radius, M.sinF angle * radius⟩

/-- Modification of the last element of a list (helper for the embedding of
`make_wide_line`). -/
def modLast (f : α → α) (l : List α) : List α :=
  (l.reverse.modifyHead f).reverse

/-- Interior miter vertices of `rekt::make_wide_line`: for each interior
point of the padded polyline, the two vertices obtained by offsetting
perpendicular to the averaged direction of the two adjacent segments. -/
def miterPoints (M : MathFns F) (hw : F) : List (Vec2 F) → List (Vec2 F)
  | p1 :: p2 :: p3 :: rest =>
    let seg1 := p2 - p1
    let seg2 := p3 - p2
    let alpha1 := M.atan2F seg1.y seg1.x
    let alpha2 := M.atan2F seg2.y seg2.x
    let alpha := (alpha1 + alpha2) / 2
    let delta : Vec2 F := (⟨M.cosF (alpha + M.piF / 2), M.sinF (alpha + M.piF / 2)⟩ : Vec2 F) * hw
    (p2 + delta) :: (p2 - delta) :: miterPoints M hw (p2 :: p3 :: rest)
  | _ => []
termination_by l => l.length

/-- The padded point list `_points` built inside `rekt::make_wide_line`:
the (optionally lengthened) input with one extrapolated virtual neighbour
prepended and appended. -/
def wideLinePad (M : MathFns F) (points : List (Vec2 F)) (half_width : F)
    (lengthen_ends : Bool) : List (Vec2 F) :=
  let q :=
    if lengthen_ends then
      modLast
        (fun l => l + normalize2 M (points.getD (points.length - 1) ⟨0,0⟩ -
            points.getD (points.length - 2) ⟨0,0⟩) * half_width)
        (points.modifyHead fun h =>
          h - normalize2 M (points.getD 1 ⟨0,0⟩ - points.getD 0 ⟨0,0⟩) * half_width)
    else points
  let withEnd := q ++ [q.getD (q.length - 1) ⟨0,0⟩ * (2 : F) - q.getD (q.length - 2) ⟨0,0⟩]
  (withEnd.getD 0 ⟨0,0⟩ - (withEnd.getD 1 ⟨0,0⟩ - withEnd.getD 0 ⟨0,0⟩)) :: withEnd

/-- The `rekt::make_wide_line` function (`geom_utils.h`): widens an open
polyline into a quad strip.  Input with fewer than 2 points is undefined
behaviour in the source (caller obligation per the spec). -/
def make_wide_line (M : MathFns F) (points : List (Vec2 F)) (width : F)
    (lengthen_ends : Bool := false) :
    List (ℤ × ℤ × ℤ × ℤ) × List (Vec3 F) :=
  let vertexes := miterPoints M (width / 2) (wideLinePad M points (width / 2) lengthen_ends)
  let quads := (List.range (vertexes.length / 2 - 2)).map fun k =>
    ((2*k : ℤ), 2*k + 1, 2*k + 3, 2*k + 2)
  (quads, to_3d vertexes 0 false)

/-- Elements of a list at even indices `0, 2, 4, ...`, in order (the first
re-sequencing loop of `rekt::make_wide_line_border`,
`for (i = 0; i < size; i += 2)`). -/
def forwardEvens : List α → List α
  | [] => []
  | [a] => [a]
  | a :: _ :: rest => a :: forwardEvens rest

/-- Elements of a list at indices `size-1, size-3, ...` in that (backward)
order (the second re-sequencing loop of `rekt::make_wide_line_border`,
`for (i = size - 1; i >= 0; i -= 2)`): the even-position elements of the
reversed list. -/
def backwardStep2 (l : List α) : List α :=
  forwardEvens l.reverse

/-- The `rekt::make_wide_line_border` function (`geom_utils.h`):
re-sequences the quad strip's vertices into a single closed polygon
boundary (right side forward, then left side backward). -/
def make_wide_line_border (M : MathFns F) (points : List (Vec2 F)) (width : F)
    (lengthen_ends : Bool := false) : List (Vec3 F) :=
  let pos := (make_wide_line M points width lengthen_ends).2
  forwardEvens pos ++ backwardStep2 pos

/-- The type of the external constrained-Delaunay triangulation service
(poly2tri's `CDT`, a black box per the spec): from a border polyline and
hole polylines (2D), a list of triangles of 2D points. -/
def CdtService (F : Type) : Type :=
  List (Vec2 F) → List (List (Vec2 F)) → List (Vec2 F × Vec2 F × Vec2 F)

/-- The `rekt::triangulate` wrapper (`geom_utils.h`): feeds `(x,z)` of each
3D input point to the CDT service, then re-emits each output triangle as
three fresh vertices (vertices are duplicated per triangle, exactly as the
source does), converting back to 3D through `to_3d` — with the default
`flip_z = true`, so the returned cap vertices have their `z` negated
relative to the input border. -/
def triangulate (cdtO : CdtService F) (border : List (Vec3 F))
    (holes : List (List (Vec3 F)) := []) :
    List (ℤ × ℤ × ℤ) × List (Vec3 F) :=
  let tris := cdtO (border.map fun p => ⟨p.x, p.z⟩)
      (holes.map fun h => h.map fun p => ⟨p.x, p.z⟩)
  let pos2 : List (Vec2 F) := tris.foldr (fun t acc => t.1 :: t.2.1 :: t.2.2 :: acc) []
  let idx := (List.range tris.length).map fun k => ((3*k : ℤ), 3*k + 1, 3*k + 2)
  (idx, to_3d pos2)

/-- The `rekt::thicken_polygon` function (`geom_utils.h`): makes a thick
solid from a polygon.  The face normal is computed and then overwritten
with `{0,1,0}` in the source (the `// ???` line), so thickness is always
added straight up. -/
def thicken_polygon (cdtO : CdtService F) (border : List (Vec3 F))
    (thickness : F) (holes : List (List (Vec3 F)) := []) : Shape F :=
  let face_norm : Vec3 F := ⟨0, 1, 0⟩
  let pos1 := border ++ border.map fun p => p + face_norm * thickness
  let ps := (border.length : ℤ)
  let wallQuads := ((List.range (border.length - 1)).map fun i =>
      ((i : ℤ), i + 1, ps + i + 1, ps + i)) ++ [(ps - 1, 0, ps, 2 * ps - 1)]
  let step := fun (st : List (Vec3 F) × List (ℤ × ℤ × ℤ × ℤ)) (hole : List (Vec3 F)) =>
      let ps' := (st.1.length : ℤ)
      let hs := (hole.length : ℤ)
      let newPos := st.1 ++ hole ++ hole.map fun p => p + face_norm * thickness
      let qs := (List.range (hole.length - 1)).map fun i =>
        (ps' + i, ps' + i + 1, ps' + hs + i + 1, ps' + hs + i)
      (newPos, st.2 ++ qs)
  let afterHoles := holes.foldl step (pos1, [])
  let ps2 := (afterHoles.1.length : ℤ)
  let t := triangulate cdtO border holes
  let tsz := (t.2.length : ℤ)
  let capTris := t.1.foldl (fun acc tr =>
      acc ++ [(tr.2.2 + ps2, tr.2.1 + ps2, tr.1 + ps2),
              (tr.1 + ps2 + tsz, tr.2.1 + ps2 + tsz, tr.2.2 + ps2 + tsz)]) []
  { pos := afterHoles.1 ++ t.2 ++ t.2.map fun p => p + face_norm * thickness
    triangles := capTris
    quads := wallQuads ++ afterHoles.2 }

/-- The `rekt::roof_type` enumeration. -/
inductive RoofType where
  | none
  | crossgabled
  | crosshipped
  | pyramid
deriving DecidableEq, Repr

/-- The `rekt::building_type` enumeration. -/
inductive BuildingType where
  | main_points
  | border
  | regular
deriving DecidableEq, Repr

/-- The `rekt::roof_params` record: all roof types combined, only the
fields relevant to the active type are meaningful. -/
structure RoofParams (F : Type) where
  type : RoofType
  color1 : Vec3 F
  roof_angle : F
  thickness : F
  color2 : Vec3 F
  rake_overhang : F
  roof_overhang : F
  hip_depth : F
  roof_height : F
deriving Repr

/-- The `rekt::windows_params` record.  The two shape pointers are
nullable in the source, hence `Option`.  The two probability fields are
named `open_windows_` and `filled_spots_` followed by `ratio` in the
source; they are renamed `share` here for tooling reasons only. -/
structure WindowsParams (F : Type) where
  name : String
  windows_distance : F
  windows_distance_from_edges : F
  closed_window_shape : Option (Shape F)
  open_window_shape : Option (Shape F)
  open_windows_share : F
  filled_spots_share : F
deriving Repr

/-- The `rekt::building_params` record.  The source stores a pointer to the
shared RNG stream (`ygl::rng_pcg32* rng`); in the embedding the RNG state
is instead passed explicitly to the functions that consume it. -/
structure BuildingParams (F : Type) where
  type : BuildingType
  floor_main_points : List (Vec2 F)
  floor_width : F
  floor_border : List (Vec2 F)
  num_sides : ℕ
  radius : F
  reg_base_angle : F
  num_floors : ℕ
  floor_height : F
  belt_height : F
  belt_additional_width : F
  width_delta_per_floor : F
  id : String
  color1 : Vec3 F
  color2 : Vec3 F
  roof_pars : RoofParams F
  win_pars : WindowsParams F
deriving Repr

/-- Material record (`ygl::material`) as filled in by `rekt::make_material`
(`yocto_utils.h`); the texture pointer is not modelled. -/
structure Material (F : Type) where
  name : String
  kd : Vec3 F
  ks : Vec3 F
  rs : F
deriving DecidableEq, Repr

/-- The `rekt::make_material` helper (`yocto_utils.h`). -/
def make_material (name : String) (kd : Vec3 F)
    (ks : Vec3 F := ⟨(2 : F)/10, (2 : F)/10, (2 : F)/10⟩) (rs : F := (1 : F)/100) :
    Material F :=
  ⟨name, kd, ks, rs⟩

/-- Placement frame (`ygl::frame3f`): basis vectors and origin. -/
structure Frame (F : Type) where
  x : Vec3 F
  y : Vec3 F
  z : Vec3 F
  o : Vec3 F
deriving DecidableEq, Repr

/-- The identity frame (`ygl::identity_frame3f`). -/
def identity_frame : Frame F :=
  ⟨⟨1, 0, 0⟩, ⟨0, 1, 0⟩, ⟨0, 0, 1⟩, ⟨0, 0, 0⟩⟩

/-- Scene instance (`ygl::instance`): a named placement of one mesh with a
transform frame.  `mat` is the material attached by `make_instance` (window
instances keep the material of their shape and have `none` here). -/
structure Instance (F : Type) where
  name : String
  shp : Shape F
  mat : Option (Material F)
  frame : Frame F
deriving Repr

/-- Modelled from the spec: `make_instance` (its definition file is not
among the given sources).  Per the data model, an instance is a named
placement of one mesh with a transform frame and an associated material;
the freshly made instance carries the identity frame. -/
def make_instance (name : String) (shp : Shape F) (mat : Material F) :
    Instance F :=
  ⟨name, shp, some mat, identity_frame⟩

/-- Modelled from the spec: `rotate_y` (its definition file is not among
the given sources).  Rotates a 3D vector about the vertical axis, as used
to face window instances outward along their side's direction. -/
def rotate_y (M : MathFns F) (v : Vec3 F) (angle : F) : Vec3 F :=
  ⟨v.x * M.cosF angle + v.z * M.sinF angle, v.y,
   -(v.x * M.sinF angle) + v.z * M.cosF angle⟩

/-- Modelled from the spec: `get_size` (its definition file is not among
the given sources).  The bounding-box extent of a mesh, used by
`make_windows` as `get_size(shape).x` — "`w` = the wider of the open/closed
window mesh widths". -/
def get_size (shp : Shape F) : Vec3 F :=
  match shp.pos with
  | [] => ⟨0, 0, 0⟩
  | p :: ps =>
    let hi := ps.foldl (fun (a : Vec3 F) q => ⟨max a.x q.x, max a.y q.y, max a.z q.z⟩) p
    let lo := ps.foldl (fun (a : Vec3 F) q => ⟨min a.x q.x, min a.y q.y, min a.z q.z⟩) p
    hi - lo

/-- Vertical bump of a 3D point (`p.y += h` in the source). -/
def vecAddY (v : Vec3 F) (h : F) : Vec3 F := ⟨v.x, v.y + h, v.z⟩

/-- The `rekt::get_building_height` helper (`building_utils.h`).  The
source computes `(num_floors - 1)` on a C++ `unsigned`, which wraps around
at `2^32` when `num_floors = 0`; `usub1` models that. -/
def get_building_height (num_floors : ℕ) (floor_height belt_height : F) : F :=
  (num_floors : F) * floor_height + (usub1 num_floors : F) * belt_height

/-- Ridge/quad generation loop of `rekt::make_roof_crossgabled_simple`:
`i` walks the right side of the widened border, `j` the opposite point,
`psize` is the vertex count of the shape before this iteration's push. -/
def gabledLoop (border : List (Vec3 F)) (ch : F) (i j psize : ℤ) :
    List (Vec3 F) × List (ℤ × ℤ × ℤ × ℤ) :=
  if i < j - 2 then
    let mid_next := vecAddY ((posAt border (i + 1) + posAt border (j - 1)) / (2 : F)) ch
    let rest := gabledLoop border ch (i + 1) (j - 1) (psize + 1)
    (mid_next :: rest.1,
     (j, j - 1, i + 1, i) :: (j - 1, j, psize - 1, psize) ::
       (i, i + 1, psize, psize - 1) :: rest.2)
  else ([], [])
termination_by (j - i).toNat
decreasing_by
  have _h : i < j - 2 := by assumption
  omega

/-- The `rekt::make_roof_crossgabled_simple` function (`building_utils.h`).
Throws "Invalid roof angle" when the angle is outside `(0, pi/2)`; raises a
ridge at `center_height = tan(roof_angle) * floor_width / 2` over averaged
pairs of boundary vertices. -/
def make_roof_crossgabled_simple (M : MathFns F)
    (floor_main_points : List (Vec2 F)) (floor_width roof_angle : F)
    (base_height : F := 0) : Except String (Shape F) :=
  if roof_angle ≤ 0 ∨ M.piF / 2 ≤ roof_angle then .error "Invalid roof angle"
  else
    let center_height := M.tanF roof_angle * floor_width / 2
    let border := make_wide_line_border M floor_main_points floor_width
    let mid0 := vecAddY
      ((posAt border 0 + posAt border ((border.length : ℤ) - 1)) / (2 : F))
      center_height
    let lr := gabledLoop border center_height 0 ((border.length : ℤ) - 1)
      ((border.length : ℤ) + 1)
    let pos := border ++ [mid0] ++ lr.1
    let floor_points := (2 * floor_main_points.length : ℤ)
    let tris := [(0, floor_points, floor_points - 1),
                 (floor_points / 2, (pos.length : ℤ) - 1, floor_points / 2 - 1)]
    let pos2 := if base_height ≠ 0 then displace pos ⟨0, base_height, 0⟩ else pos
    .ok ⟨pos2, tris, lr.2⟩

/-- The `rekt::make_roof_crosshipped_simple` function (`building_utils.h`):
post-processes a cross-gabled roof by pulling the two ridge endpoints
inward along the ridge by `hip_depth`. -/
def make_roof_crosshipped_simple (M : MathFns F)
    (floor_main_points : List (Vec2 F)) (floor_width roof_angle hip_depth : F)
    (base_height : F := 0) : Except String (Shape F) := do
  let shp ← make_roof_crossgabled_simple M floor_main_points floor_width
    roof_angle base_height
  let fr := 2 * floor_main_points.length
  let lr := shp.pos.length - 1
  let pos1 := shp.pos.set fr
    (posAt shp.pos fr +
      normalize3 M (posAt shp.pos (fr + 1) - posAt shp.pos fr) * hip_depth)
  let pos2 := pos1.set lr
    (posAt pos1 lr -
      normalize3 M (posAt pos1 lr - posAt pos1 (lr - 1)) * hip_depth)
  return { shp with pos := pos2 }

/-- Modelled from the spec: `triangulate_opposite` (its definition file is
not among the given sources).  Per the spec's triangulation contract it is
the same adapter as `triangulate` with the opposite target winding, so each
emitted index triple is reversed. -/
def triangulate_opposite (cdtO : CdtService F) (border : List (Vec3 F))
    (holes : List (List (Vec3 F)) := []) :
    List (ℤ × ℤ × ℤ) × List (Vec3 F) :=
  let t := triangulate cdtO border holes
  (t.1.map fun tr => (tr.2.2, tr.2.1, tr.1), t.2)

/-- The `rekt::make_roof_pyramid_from_border` function (`building_utils.h`):
triangulates the floor border, adds an apex above the border's centroid at
`roof_height`, and fans side triangles from each border edge to the apex.
The final `merge_same_points` call is repository code whose definition file
is not among the given sources and which the spec does not describe; it is
abstracted as the `mergeO` parameter. -/
def make_roof_pyramid_from_border (cdtO : CdtService F)
    (mergeO : Shape F → Shape F) (border : List (Vec2 F)) (roof_height : F)
    (base_height : F := 0) : Shape F :=
  let t := triangulate_opposite cdtO (to_3d border) []
  let c := centroid border
  let top := to_3dPoint c roof_height
  let pos1 := t.2 ++ [top]
  let sz := (pos1.length : ℤ)
  let fanPts := (List.range border.length).map fun i => to_3dPoint (border.getD i ⟨0,0⟩)
  let fanTris := (List.range (border.length - 1)).map fun i =>
    ((sz + i : ℤ), sz + i + 1, sz - 1)
  let pos2 := pos1 ++ fanPts
  let tris := t.1 ++ fanTris ++ [((sz + border.length : ℤ) - 1, sz, sz - 1)]
  let pos3 := if base_height > 0 then displace pos2 ⟨0, base_height, 0⟩ else pos2
  mergeO ⟨pos3, tris, []⟩

/-- The `rekt::make_roof_pyramid_from_main_points` function
(`building_utils.h`). -/
def make_roof_pyramid_from_main_points (M : MathFns F) (cdtO : CdtService F)
    (mergeO : Shape F → Shape F) (floor_main_points : List (Vec2 F))
    (floor_width roof_height : F) (base_height : F := 0) : Shape F :=
  let border := to_2d (make_wide_line_border M floor_main_points floor_width)
  make_roof_pyramid_from_border cdtO mergeO border roof_height base_height

/-- Application of a function to the elements of a list whose index lies in
`[lo, hi)` (helper for the overhang fix-ups of the thickened roof). -/
def applyRange (l : List α) (lo hi : ℕ) (f : α → α) : List α :=
  l.enum.map fun p => if lo ≤ p.1 ∧ p.1 < hi then f p.2 else p.2

/-- Vertex/quad generation loop of `rekt::make_roof_crossgabled_thickness`:
six new vertices and the stitching quads per main point. -/
def thickLoop (M : MathFns F) (fb : List (Vec3 F)) (ch tw th : F)
    (i j ps : ℤ) : List (Vec3 F) × List (ℤ × ℤ × ℤ × ℤ) :=
  if i < j - 2 then
    let a := posAt fb (i + 1)
    let b := posAt fb (j - 1)
    let mid := vecAddY ((a + b) / (2 : F)) ch
    let tr := normalize3 M (a - b)
    let bi := ps - 6
    let quads := [(bi, bi+2, bi+8, bi+6), (bi+1, bi+2, bi+8, bi+7),
                  (bi+3, bi+9, bi+11, bi+5), (bi+4, bi+5, bi+11, bi+10),
                  (bi+1, bi+4, bi+10, bi+7), (bi, bi+6, bi+9, bi+3)] ++
      (if i = 0 then [(bi+1, bi+2, bi+5, bi+4), (bi, bi+3, bi+5, bi+2)] else []) ++
      (if i = j - 3 then [(bi+6, bi+8, bi+11, bi+9), (bi+7, bi+10, bi+11, bi+8)] else [])
    let rest := thickLoop M fb ch tw th (i + 1) (j - 1) (ps + 6)
    ([a, b, mid, a + tr * tw, b - tr * tw, vecAddY mid th] ++ rest.1,
     quads ++ rest.2)
  else ([], [])
termination_by (j - i).toNat
decreasing_by
  have _h : i < j - 2 := by assumption
  omega

/-- Stride-6 roof-overhang fix-up loop of
`rekt::make_roof_crossgabled_thickness`: pushes the top-edge vertices of
each slope outward perpendicular to the slope. -/
def overhangGroups (M : MathFns F) (len : F) : List (Vec3 F) → List (Vec3 F)
  | a :: b :: c :: d :: e :: f :: rest =>
    let tt := normalize3 M (c - a)
    let tt2 : Vec3 F := ⟨-tt.x, tt.y, -tt.z⟩
    (a - tt * len) :: (b - tt2 * len) :: c :: (d - tt * len) :: (e - tt2 * len) ::
      f :: overhangGroups M len rest
  | other => other
termination_by l => l.length

/-- The `rekt::make_roof_crossgabled_thickness` function
(`building_utils.h`): the uniformly thick rafter shell with rake and roof
overhangs, via the law-of-sines extra height and width. -/
def make_roof_crossgabled_thickness (M : MathFns F)
    (floor_main_points : List (Vec2 F))
    (floor_width roof_angle thickness rake_overhang roof_overhang : F)
    (base_height : F := 0) : Except String (Shape F) :=
  if rake_overhang < 0 ∨ roof_overhang < 0 then .error "Invalid arguments."
  else
    let center_height := M.tanF roof_angle * floor_width / 2
    let fb := make_wide_line_border M floor_main_points floor_width
    let thick_height := thickness / M.sinF (M.piF / 2 - roof_angle)
    let thick_width := thickness / M.sinF roof_angle
    let p0 := posAt fb 0
    let p1 := posAt fb ((fb.length : ℤ) - 1)
    let p2 := vecAddY ((p0 + p1) / (2 : F)) center_height
    let tr := normalize3 M (p0 - p1)
    let first6 := [p0, p1, p2, p0 + tr * thick_width, p1 - tr * thick_width,
                   vecAddY p2 thick_height]
    let lp := thickLoop M fb center_height thick_width thick_height 0
      ((fb.length : ℤ) - 1) 6
    let pos := first6 ++ lp.1
    let pos1 := if base_height ≠ 0 then displace pos ⟨0, base_height, 0⟩ else pos
    let pos2 :=
      if rake_overhang > 0 then
        let dir := normalize3 M (posAt pos1 6 - posAt pos1 0)
        let a := applyRange pos1 0 6 fun p => p - dir * rake_overhang
        let dir2 := normalize3 M
          (posAt a ((a.length : ℤ) - 1) - posAt a ((a.length : ℤ) - 7))
        applyRange a (a.length - 6) a.length fun p => p + dir2 * rake_overhang
      else pos1
    let pos3 :=
      if roof_overhang > 0 then
        overhangGroups M (roof_overhang / M.sinF (M.piF / 2 - roof_angle)) pos2
      else pos2
    .ok ⟨pos3, [], lp.2⟩

/-- A freshly constructed `new ygl::shape()`. -/
def emptyShape : Shape F := ⟨[], [], []⟩

/-- The type of the external polygon-expansion service
(`rekt::expand_polygon`, recurring on the vendored clipping library):
polygon and outward distance to a single expanded polygon, as consumed by
the belt construction. -/
def ExpandService (F : Type) : Type := List (Vec2 F) → F → List (Vec2 F)

/-- The type of the external polygon-offsetting service
(`rekt::offset_polygon`): polygon and signed distance to one or more
polygons; callers index the first (`[0]`). -/
def OffsetService (F : Type) : Type := List (Vec2 F) → F → List (List (Vec2 F))

/-- The type of the `merge_same_points` pass applied by the pyramid roof:
repository code whose definition file is not among the given sources and
which the spec does not describe; kept abstract. -/
def MergeService (F : Type) : Type := Shape F → Shape F

/-- Modelled from the spec: `merge_shapes` (its definition file is not
among the given sources).  Per the data model, meshes are "merged
(index-offset concatenation)": the source mesh's faces are appended with
their indices shifted by the destination's vertex count. -/
def merge_shapes (dst src : Shape F) : Shape F :=
  let off := (dst.pos.length : ℤ)
  ⟨dst.pos ++ src.pos,
   dst.triangles ++ src.triangles.map fun t => (t.1 + off, t.2.1 + off, t.2.2 + off),
   dst.quads ++ src.quads.map fun q =>
     (q.1 + off, q.2.1 + off, q.2.2.1 + off, q.2.2.2 + off)⟩

/-- Displacement of a whole mesh (`displace(shp->pos, d)` in the source). -/
def shapeDisplace (s : Shape F) (d : Vec3 F) : Shape F :=
  { s with pos := displace s.pos d }

/-- Modelled from the spec: the 2D-border overload of `thicken_polygon`
used by the floor builders (its definition file is not among the given
sources); it lifts the plan-view border to 3D through `to_3d` and extrudes
it with the 3D `thicken_polygon`. -/
def thicken_polygon2 (cdtO : CdtService F) (border : List (Vec2 F))
    (thickness : F) : Shape F :=
  thicken_polygon cdtO (to_3d border) thickness []

/-- Body of the floor-stacking loop shared (by copy-paste, per the source
comments) between the three floor builders: one iteration for floor `i`,
given how to rebuild the floor and belt slabs at a width-delta-adjusted
floor index. -/
def floorsStep (floor_height belt_height width_delta_per_floor : F)
    (rebuild : ℕ → Except String (Shape F × Shape F))
    (st : Shape F × Shape F × Shape F × Shape F) (i : ℕ) :
    Except String (Shape F × Shape F × Shape F × Shape F) := do
  let (floor, belt, floor_shp, belt_shp) := st
  let belt_shp := merge_shapes belt_shp belt
  let (floor, belt) ←
    if width_delta_per_floor = 0 then
      pure (shapeDisplace floor ⟨0, floor_height + belt_height, 0⟩,
            shapeDisplace belt ⟨0, floor_height + belt_height, 0⟩)
    else do
      let fb ← rebuild i
      pure (shapeDisplace fb.1 ⟨0, (floor_height + belt_height) * (i : F), 0⟩,
            shapeDisplace fb.2
              ⟨0, (floor_height + belt_height) * (i : F) + floor_height, 0⟩)
  return (floor, belt, merge_shapes floor_shp floor, belt_shp)

/-- The `rekt::__make_floors_from_border` function (`building_utils.h`).
Validates `num_floors`, `floor_height`, `belt_height` and
`belt_additional_width`, then stacks one extruded floor slab per floor with
a belt slab between consecutive floors. -/
def __make_floors_from_border (cdtO : CdtService F) (expandO : ExpandService F)
    (offsetO : OffsetService F) (floor_border : List (Vec2 F)) (num_floors : ℕ)
    (floor_height belt_height belt_additional_width : F)
    (width_delta_per_floor : F := 0) : Except String (Shape F × Shape F) := do
  if num_floors ≤ 0 ∨ floor_height ≤ 0 ∨ belt_height < 0 ∨
      belt_additional_width ≤ 0 then
    throw "Invalid arguments"
  let floor0 := thicken_polygon2 cdtO floor_border floor_height
  let belt0 :=
    if belt_height ≤ 0 then emptyShape
    else shapeDisplace
      (thicken_polygon2 cdtO (expandO floor_border belt_additional_width) belt_height)
      ⟨0, floor_height, 0⟩
  let st0 := (floor0, belt0, merge_shapes emptyShape floor0, (emptyShape : Shape F))
  let fin ← (List.range' 1 (num_floors - 1)).foldlM
    (floorsStep floor_height belt_height width_delta_per_floor fun i =>
      pure (thicken_polygon2 cdtO
              ((offsetO floor_border (width_delta_per_floor * (i : F))).headD [])
              floor_height,
            thicken_polygon2 cdtO
              ((offsetO floor_border
                  (belt_additional_width + width_delta_per_floor * (i : F))).headD [])
              belt_height))
    st0
  return (fin.2.2.1, fin.2.2.2)

/-- The `rekt::make_floors_from_main_points` function (`building_utils.h`).
Note its validation differs from the border version: it also requires
`floor_width > 0`, but only rejects a *negative* `belt_additional_width`
(zero passes). -/
def make_floors_from_main_points (M : MathFns F) (cdtO : CdtService F)
    (expandO : ExpandService F) (offsetO : OffsetService F)
    (floor_main_points : List (Vec2 F)) (floor_width : F) (num_floors : ℕ)
    (floor_height belt_height belt_additional_width : F)
    (width_delta_per_floor : F := 0) : Except String (Shape F × Shape F) := do
  if floor_width ≤ 0 ∨ num_floors ≤ 0 ∨ floor_height ≤ 0 ∨ belt_height < 0 ∨
      belt_additional_width < 0 then
    throw "Invalid arguments"
  let floor_border := to_2d (make_wide_line_border M floor_main_points floor_width)
  let floor0 := thicken_polygon2 cdtO floor_border floor_height
  let belt0 :=
    if belt_height ≤ 0 then emptyShape
    else shapeDisplace
      (thicken_polygon2 cdtO (expandO floor_border belt_additional_width) belt_height)
      ⟨0, floor_height, 0⟩
  let st0 := (floor0, belt0, merge_shapes emptyShape floor0, (emptyShape : Shape F))
  let fin ← (List.range' 1 (num_floors - 1)).foldlM
    (floorsStep floor_height belt_height width_delta_per_floor fun i =>
      let fb := to_2d (make_wide_line_border M floor_main_points
        (floor_width + width_delta_per_floor * (i : F)))
      pure (thicken_polygon2 cdtO fb floor_height,
            thicken_polygon2 cdtO ((offsetO fb belt_additional_width).headD [])
              belt_height))
    st0
  return (fin.2.2.1, fin.2.2.2)

/-- The `rekt::make_floors_from_regular` function (`building_utils.h`).
Note: this variant performs **no** floor/belt validation of its own; the
only failure comes from `make_regular_polygon` (`num_sides < 3`).  The
`base_angle` parameter is forwarded to `make_regular_polygon`'s `bool
xy_aligned` parameter, so it undergoes the C++ float-to-bool conversion. -/
def make_floors_from_regular (M : MathFns F) (cdtO : CdtService F)
    (expandO : ExpandService F) (offsetO : OffsetService F) (num_sides : ℕ)
    (radius base_angle : F) (num_floors : ℕ)
    (floor_height belt_height belt_additional_width : F)
    (width_delta_per_floor : F := 0) : Except String (Shape F × Shape F) := do
  let floor_border ← make_regular_polygon M (num_sides : ℤ) radius
    (cppBool base_angle)
  let floor0 := thicken_polygon2 cdtO floor_border floor_height
  let belt0 :=
    if belt_height ≤ 0 then emptyShape
    else shapeDisplace
      (thicken_polygon2 cdtO (expandO floor_border belt_additional_width) belt_height)
      ⟨0, floor_height, 0⟩
  let st0 := (floor0, belt0, merge_shapes emptyShape floor0, (emptyShape : Shape F))
  let fin ← (List.range' 1 (num_floors - 1)).foldlM
    (floorsStep floor_height belt_height width_delta_per_floor fun i => do
      let fb ← make_regular_polygon M (num_sides : ℤ)
        (radius + width_delta_per_floor * (i : F)) (cppBool base_angle)
      pure (thicken_polygon2 cdtO fb floor_height,
            thicken_polygon2 cdtO ((offsetO fb belt_additional_width).headD [])
              belt_height))
    st0
  return (fin.2.2.1, fin.2.2.2)

/-- The `rekt::make_floors_from_border` alias of `__make_floors_from_border`
(`auto& make_floors_from_border = __make_floors_from_border`). -/
def make_floors_from_border (cdtO : CdtService F) (expandO : ExpandService F)
    (offsetO : OffsetService F) (floor_border : List (Vec2 F)) (num_floors : ℕ)
    (floor_height belt_height belt_additional_width : F)
    (width_delta_per_floor : F := 0) : Except String (Shape F × Shape F) :=
  __make_floors_from_border cdtO expandO offsetO floor_border num_floors
    floor_height belt_height belt_additional_width width_delta_per_floor

/-- The `rekt::check_win_info` validation (`building_utils.h`). -/
def check_win_info (w : WindowsParams F) : Except String Unit :=
  if w.windows_distance < 0 ∨
      w.closed_window_shape = none ∨ w.open_window_shape = none ∨
      w.open_windows_share < 0 ∨ w.open_windows_share > 1 ∨
      w.filled_spots_share < 0 ∨ w.filled_spots_share > 1 then
    .error "Invalid windows parameters"
  else .ok ()

/-- Window-slot count of a side, extracted verbatim from the body of the
`make_windows` per-side lambda: `0` when `w + 2*eps >= W`, else
`int((W - w - 2*eps) / (w + s)) + 1`. -/
def num_windows (W w eps s : F) : ℤ :=
  if w + 2 * eps ≥ W then 0 else cppInt ((W - w - 2 * eps) / (w + s)) + 1

/-- Re-spread spacing of a side, extracted verbatim from the body of the
`make_windows` per-side lambda: `s = (W - 2*eps - n*w) / (n - 1)`. -/
def respread_spacing (W w eps : F) (n : ℤ) : F :=
  (W - 2 * eps - (n : F) * w) / ((n : F) - 1)

/-- The window width used by `make_windows`: the wider of the two window
meshes' bounding-box x extents. -/
def window_width (wp : WindowsParams F) : F :=
  let wc := (get_size (wp.closed_window_shape.getD emptyShape)).x
  let wo := (get_size (wp.open_window_shape.getD emptyShape)).x
  if wo > wc then wo else wc

/-- Accumulated state of the `make_windows` loops: the windows's unique id
counter, the instances produced so far, and the RNG state. -/
structure WinAcc (F : Type) where
  win_id : ℕ
  windows : List (Instance F)
  rng : Rng F

/-- The per-side lambda of `rekt::make_windows` (`building_utils.h`): slot
count and re-spreading, then one Bernoulli draw per slot to decide whether
the slot is filled and (for filled slots) one more to pick the open or the
closed mesh. -/
def windows_for_side (M : MathFns F) (pars : BuildingParams F) (i : ℕ)
    (p1 p2 : Vec2 F) (acc : WinAcc F) : Except String (WinAcc F) :=
  let side := p2 - p1
  let eps := pars.win_pars.windows_distance_from_edges
  let W := length2 M side
  let w := window_width pars.win_pars
  let s := pars.win_pars.windows_distance
  let n := num_windows W w eps s
  if n ≤ 0 then .ok acc
  else
    let s := respread_spacing W w eps n
    let eps := if n = 1 then W / 2 else eps
    let dir := normalize2 M side
    (List.range n.toNat).foldlM (fun (acc : WinAcc F) (j : ℕ) => do
      let win_center_xz := p1 + dir * (eps + w / 2 + (w + s) * (j : F))
      let (keep, rng1) ← bernoulli pars.win_pars.filled_spots_share acc.rng
      if keep = false then
        pure { acc with rng := rng1 }
      else do
        let win_center_y :=
          pars.floor_height / 2 + (pars.floor_height + pars.belt_height) * (i : F)
        let (isOpen, rng2) ← bernoulli pars.win_pars.open_windows_share rng1
        let shp :=
          if isOpen then pars.win_pars.open_window_shape.getD emptyShape
          else pars.win_pars.closed_window_shape.getD emptyShape
        let fr : Frame F :=
          { identity_frame with
            o := to_3dPoint win_center_xz win_center_y
            x := rotate_y M (identity_frame (F := F)).x (get_angle M side)
            z := rotate_y M (identity_frame (F := F)).z (get_angle M side) }
        pure ⟨acc.win_id + 1,
              acc.windows ++
                [⟨pars.win_pars.name ++ "_" ++ toString acc.win_id, shp, none, fr⟩],
              rng2⟩) acc

/-- Modelled from the spec: `for_sides` (its definition file is not among
the given sources).  Per the spec, the per-side processing runs "for each
side of the polygon (consecutive vertex pair)", the loop being closed
implicitly, so the callback is folded over the pairs of each vertex with
its cyclic successor. -/
def for_sides (border : List (Vec2 F))
    (f : Vec2 F → Vec2 F → α → Except String α) (init : α) : Except String α :=
  (border.zip (border.rotate 1)).foldlM (fun a pq => f pq.1 pq.2 a) init

/-- The floor-border switch at the top of the `make_windows` floor loop:
recomputes the (width-delta-adjusted) border polygon of floor `i` per
building type.  In the `regular` case the source passes the float
`reg_base_angle` to `make_regular_polygon`'s `bool` parameter. -/
def windows_border_at_floor (M : MathFns F) (offsetO : OffsetService F)
    (pars : BuildingParams F) (i : ℕ) : Except String (List (Vec2 F)) :=
  match pars.type with
  | .main_points => .ok (to_2d (make_wide_line_border M pars.floor_main_points
      (pars.floor_width + pars.width_delta_per_floor * (i : F))))
  | .border => .ok ((offsetO pars.floor_border
      (pars.width_delta_per_floor * (i : F))).headD [])
  | .regular => make_regular_polygon M (pars.num_sides : ℤ)
      (pars.radius + pars.width_delta_per_floor * (i : F))
      (cppBool pars.reg_base_angle)

/-- The `rekt::make_windows` function (`building_utils.h`): makes all the
window instances for a building.  The shared RNG stream referenced by the
parameter record is passed (and returned) explicitly. -/
def make_windows (M : MathFns F) (offsetO : OffsetService F)
    (pars : BuildingParams F) (rng : Rng F) :
    Except String (List (Instance F) × Rng F) := do
  check_win_info pars.win_pars
  let fin ← (List.range pars.num_floors).foldlM (fun acc i => do
      let border ← windows_border_at_floor M offsetO pars i
      for_sides border (fun p1 p2 a => windows_for_side M pars i p1 p2 a) acc)
    (⟨0, [], rng⟩ : WinAcc F)
  return (fin.windows, fin.rng)

/-- The `rekt::make_floors_from_params` dispatcher (`building_utils.h`). -/
def make_floors_from_params (M : MathFns F) (cdtO : CdtService F)
    (expandO : ExpandService F) (offsetO : OffsetService F)
    (pars : BuildingParams F) : Except String (Shape F × Shape F) :=
  match pars.type with
  | .main_points => make_floors_from_main_points M cdtO expandO offsetO
      pars.floor_main_points pars.floor_width pars.num_floors pars.floor_height
      pars.belt_height pars.belt_additional_width pars.width_delta_per_floor
  | .border => make_floors_from_border cdtO expandO offsetO pars.floor_border
      pars.num_floors pars.floor_height pars.belt_height
      pars.belt_additional_width pars.width_delta_per_floor
  | .regular => make_floors_from_regular M cdtO expandO offsetO pars.num_sides
      pars.radius pars.reg_base_angle pars.num_floors pars.floor_height
      pars.belt_height pars.belt_additional_width pars.width_delta_per_floor

/-- The `rekt::make_roof_from_params` dispatcher (`building_utils.h`).
All roofs sit at the building's stacked height, and all are built from the
top floor's footprint: the local `floor_width` variable is
`floor_width + width_delta_per_floor * (num_floors - 1)` (with the
`unsigned` subtraction), border-mode pyramids offset the border by
`width_delta_per_floor * (num_floors - 1)`, and regular-mode pyramids use
`radius + width_delta_per_floor * (num_floors - 1)`. -/
def make_roof_from_params (M : MathFns F) (cdtO : CdtService F)
    (offsetO : OffsetService F) (mergeO : MergeService F)
    (pars : BuildingParams F) : Except String (Shape F × Shape F) := do
  let base_height := get_building_height pars.num_floors pars.floor_height
    pars.belt_height
  let floor_width := pars.floor_width +
    pars.width_delta_per_floor * (usub1 pars.num_floors : F)
  match pars.roof_pars.type with
  | .none => return (emptyShape, emptyShape)
  | .crossgabled => do
    if pars.type ≠ BuildingType.main_points then
      throw "Invalid parameters"
    let r_shp ← make_roof_crossgabled_simple M pars.floor_main_points
      floor_width pars.roof_pars.roof_angle base_height
    let t_shp ←
      if pars.roof_pars.thickness > 0 then
        make_roof_crossgabled_thickness M pars.floor_main_points floor_width
          pars.roof_pars.roof_angle pars.roof_pars.thickness
          pars.roof_pars.rake_overhang pars.roof_pars.roof_overhang base_height
      else pure emptyShape
    return (r_shp, t_shp)
  | .crosshipped => do
    if pars.type ≠ BuildingType.main_points then
      throw "Invalid parameters"
    let r_shp ← make_roof_crosshipped_simple M pars.floor_main_points
      floor_width pars.roof_pars.roof_angle pars.roof_pars.hip_depth base_height
    return (r_shp, emptyShape)
  | .pyramid =>
    match pars.type with
    | .main_points =>
      return (make_roof_pyramid_from_main_points M cdtO mergeO
        pars.floor_main_points floor_width pars.roof_pars.roof_height
        base_height, emptyShape)
    | .border =>
      return (make_roof_pyramid_from_border cdtO mergeO
        ((offsetO pars.floor_border
            (pars.width_delta_per_floor * (usub1 pars.num_floors : F))).headD [])
        pars.roof_pars.roof_height base_height, emptyShape)
    | .regular => do
      let border ← make_regular_polygon M (pars.num_sides : ℤ)
        (pars.radius + pars.width_delta_per_floor * (usub1 pars.num_floors : F))
        (cppBool pars.reg_base_angle)
      return (make_roof_pyramid_from_border cdtO mergeO border
        pars.roof_pars.roof_height base_height, emptyShape)

/-- The `rekt::make_building` entry point (`building_utils.h`): floor/belt
body instances, roof instances, then all window instances. -/
def make_building (M : MathFns F) (cdtO : CdtService F)
    (expandO : ExpandService F) (offsetO : OffsetService F)
    (mergeO : MergeService F) (pars : BuildingParams F) (rng : Rng F) :
    Except String (List (Instance F) × Rng F) := do
  let h_shp ← make_floors_from_params M cdtO expandO offsetO pars
  let i1 := make_instance (pars.id ++ "_h1") h_shp.1 (make_material "" pars.color1)
  let i2 := make_instance (pars.id ++ "_h2") h_shp.2 (make_material "" pars.color2)
  let r_shp ← make_roof_from_params M cdtO offsetO mergeO pars
  let i3 := make_instance (pars.id ++ "_rr") r_shp.1
    (make_material "" pars.roof_pars.color1)
  let i4 := make_instance (pars.id ++ "_rt") r_shp.2
    (make_material "" pars.roof_pars.color2)
  let w ← make_windows M offsetO pars rng
  return ([i1, i2, i3, i4] ++ w.1, w.2)

/-- Success test for the `Except`-modelled C++ functions: `true` when no
exception was thrown. -/
def isOkE : Except String α → Bool
  | .ok _ => true
  | .error _ => false

/-- The elements at odd indices `1, 3, 5, ...` of a list: the even-index
elements of its tail (spec-side helper describing the "left side" of the
widened quad strip). -/
def oddSlots (l : List α) : List α := forwardEvens l.tail

/-- Concrete window parameters for witnesses (shape references left null:
the functions exercised by the witnesses below never reach the window
stage). -/
def exampleWinPars : WindowsParams ℝ :=
  ⟨"w", 0, 0, none, none, 0, 0⟩

/-- Concrete roof parameters for witnesses: a pyramid roof of height 5. -/
def exampleRoofPars : RoofParams ℝ :=
  ⟨RoofType.pyramid, ⟨1, 1, 1⟩, 1, -1, ⟨1, 1, 1⟩, 0, 0, 0, 5⟩

/-- Concrete building parameters for witnesses: a two-floor main-points
building with a pyramid roof. -/
def exampleParams : BuildingParams ℝ where
  type := BuildingType.main_points
  floor_main_points := [⟨0, 0⟩, ⟨10, 0⟩]
  floor_width := 5
  floor_border := []
  num_sides := 4
  radius := 5
  reg_base_angle := 0
  num_floors := 2
  floor_height := 3
  belt_height := 1
  belt_additional_width := 1
  width_delta_per_floor := 1
  id := "b"
  color1 := ⟨1, 1, 1⟩
  color2 := ⟨1, 1, 1⟩
  roof_pars := exampleRoofPars
  win_pars := exampleWinPars

/-- A point lying on the closed segment between `a` and `b`. -/
def segBetween (a b p : Vec2 F) : Prop :=
  ∃ t : F, 0 ≤ t ∧ t ≤ 1 ∧ p = a + (b - a) * t

/-- A simple polygon per the repository's data model: an ordered,
non-repeating sequence of at least 3 vertices describing a
non-self-intersecting closed boundary (no two non-adjacent edges share a
point; consumers close the loop implicitly). -/
def SimplePolygon (l : List (Vec2 F)) : Prop :=
  3 ≤ l.length ∧ l.Pairwise (· ≠ ·) ∧
  ∀ i j : ℕ, i < j → j < l.length → i + 1 ≠ j → ¬(i = 0 ∧ j + 1 = l.length) →
    ∀ p : Vec2 F,
      ¬(segBetween (l.getD i ⟨0, 0⟩) (l.getD ((i + 1) % l.length) ⟨0, 0⟩) p ∧
        segBetween (l.getD j ⟨0, 0⟩) (l.getD ((j + 1) % l.length) ⟨0, 0⟩) p)

/-- The edges of one triangle face, as position pairs. -/
def triEdges (pos : List (Vec3 F)) (t : ℤ × ℤ × ℤ) :
    List (Vec3 F × Vec3 F) :=
  [(posAt pos t.1, posAt pos t.2.1), (posAt pos t.2.1, posAt pos t.2.2),
   (posAt pos t.2.2, posAt pos t.1)]

/-- The edges of one quad face, as position pairs. -/
def quadEdges (pos : List (Vec3 F)) (q : ℤ × ℤ × ℤ × ℤ) :
    List (Vec3 F × Vec3 F) :=
  [(posAt pos q.1, posAt pos q.2.1), (posAt pos q.2.1, posAt pos q.2.2.1),
   (posAt pos q.2.2.1, posAt pos q.2.2.2), (posAt pos q.2.2.2, posAt pos q.1)]

/-- All face edges of a mesh, geometrically (as pairs of positions, since
the construction freely duplicates vertices). -/
def shapeEdges (s : Shape F) : List (Vec3 F × Vec3 F) :=
  s.triangles.flatMap (triEdges s.pos) ++ s.quads.flatMap (quadEdges s.pos)

/-- The number of occurrences of the edge `e` (in either orientation) in
an edge list, counted with multiplicity. -/
def edgeCount : List (Vec3 F × Vec3 F) → Vec3 F × Vec3 F → ℕ
  | [], _ => 0
  | f :: rest, e => (if e = f ∨ e = (f.2, f.1) then 1 else 0) + edgeCount rest e

/-- A closed (watertight) mesh: every face edge is shared by exactly two
faces. -/
def IsClosedMesh (s : Shape F) : Prop :=
  ∀ e ∈ shapeEdges s, edgeCount (shapeEdges s) e = 2

/-- A window mesh of bounding-box width 4, used in the window-placement
evaluations. -/
def winShape4 : Shape ℝ := ⟨[⟨-2, 0, 0⟩, ⟨2, 0, 0⟩], [], []⟩

/-- An RNG state whose every draw is `1/2`, as a legal `next_rand1f` value. -/
noncomputable def halfStream : Rng ℝ := ⟨fun _ => 1/2, 0⟩

/-- Valid window parameters with `filled_spots_` ratio `0` (and open ratio
`0`): spacing 0, edge clearance 1, both mesh references set. -/
def zeroFillWinPars : WindowsParams ℝ :=
  ⟨"wnd", 0, 1, some winShape4, some winShape4, 0, 0⟩

/-- A one-floor border-type building over the square of side 8 with the
zero-filled-ratio window parameters: the concrete input of the C1
evaluation. -/
def squareBuilding : BuildingParams ℝ where
  type := BuildingType.border
  floor_main_points := []
  floor_width := 1
  floor_border := [⟨0, 0⟩, ⟨8, 0⟩, ⟨8, 8⟩, ⟨0, 8⟩]
  num_sides := 3
  radius := 1
  reg_base_angle := 0
  num_floors := 1
  floor_height := 3
  belt_height := 0
  belt_additional_width := 1
  width_delta_per_floor := 0
  id := "b"
  color1 := ⟨1, 1, 1⟩
  color2 := ⟨1, 1, 1⟩
  roof_pars := exampleRoofPars
  win_pars := zeroFillWinPars

/-- Valid window parameters for the C9 evaluation: spacing 1, edge
clearance 2, both mesh references set, ratios 0. -/
def singleWinPars : WindowsParams ℝ :=
  ⟨"wnd", 1, 2, some winShape4, some winShape4, 0, 0⟩

/-- A one-floor border-type building over the 10-by-4 rectangle whose long
sides fit exactly one window (`n = 1`): the concrete input of the C9
evaluation. -/
def rectBuilding : BuildingParams ℝ where
  type := BuildingType.border
  floor_main_points := []
  floor_width := 1
  floor_border := [⟨0, 0⟩, ⟨10, 0⟩, ⟨10, 4⟩, ⟨0, 4⟩]
  num_sides := 3
  radius := 1
  reg_base_angle := 0
  num_floors := 1
  floor_height := 3
  belt_height := 0
  belt_additional_width := 1
  width_delta_per_floor := 0
  id := "b"
  color1 := ⟨1, 1, 1⟩
  color2 := ⟨1, 1, 1⟩
  roof_pars := exampleRoofPars
  win_pars := singleWinPars

/-! ## Helper notions for the theorems -/

theorem Vec2_add (a b : Vec2 F) : a + b = ⟨a.x + b.x, a.y + b.y⟩ := rfl

theorem Vec2_sub (a b : Vec2 F) : a - b = ⟨a.x - b.x, a.y - b.y⟩ := rfl

theorem Vec2_smul (a : Vec2 F) (k : F) : a * k = ⟨a.x * k, a.y * k⟩ := rfl

theorem Vec2_div (a : Vec2 F) (k : F) : a / k = ⟨a.x / k, a.y / k⟩ := rfl

theorem Vec3_add (a b : Vec3 F) : a + b = ⟨a.x + b.x, a.y + b.y, a.z + b.z⟩ := rfl

theorem Vec3_sub (a b : Vec3 F) : a - b = ⟨a.x - b.x, a.y - b.y, a.z - b.z⟩ := rfl

theorem Vec3_smul (a : Vec3 F) (k : F) : a * k = ⟨a.x * k, a.y * k, a.z * k⟩ := rfl

theorem Vec3_div (a : Vec3 F) (k : F) : a / k = ⟨a.x / k, a.y / k, a.z / k⟩ := rfl

@[simp] theorem isOkE_ok (a : α) : isOkE (.ok a) = true := rfl

@[simp] theorem isOkE_error (s : String) : isOkE (α := α) (.error s) = false := rfl

@[simp] theorem isOkE_pure (a : α) : isOkE (pure a) = true := rfl

@[simp] theorem isOkE_throw (s : String) :
    isOkE (α := α) (throw s) = false := rfl

@[simp] theorem except_bind_ok (a : α) (f : α → Except String β) :
    (Except.ok a >>= f) = f a := rfl

@[simp] theorem except_bind_error (s : String) (f : α → Except String β) :
    ((Except.error s : Except String α) >>= f) = .error s := rfl

/-- A fold of exception-free steps never throws. -/
theorem isOkE_foldlM {σ α : Type} (f : σ → α → Except String σ)
    (h : ∀ st a, isOkE (f st a) = true) (l : List α) (st0 : σ) :
    isOkE (l.foldlM f st0) = true := by
  induction l generalizing st0 with
  | nil => rfl
  | cons a l ih =>
    rw [List.foldlM_cons]
    rcases hfa : f st0 a with s | st'
    · exact absurd (h st0 a) (by rw [hfa]; simp)
    · exact ih st'

@[simp] theorem except_pure_def (a : α) : (pure a : Except String α) = .ok a := rfl

/-- Binding an exception-free computation with an exception-free
continuation never throws. -/
theorem isOkE_bind {e : Except String α} {f : α → Except String β}
    (he : isOkE e = true) (hf : ∀ a, isOkE (f a) = true) :
    isOkE (e >>= f) = true := by
  rcases e with s | a
  · simp at he
  · simpa using hf a

/-- One floor-stacking iteration never throws when its rebuild step does
not. -/
theorem floorsStep_isOk (fh bh delta : F)
    (rebuild : ℕ → Except String (Shape F × Shape F))
    (h : ∀ i, isOkE (rebuild i) = true) (st : Shape F × Shape F × Shape F × Shape F)
    (i : ℕ) : isOkE (floorsStep fh bh delta rebuild st i) = true := by
  unfold floorsStep
  obtain ⟨floor, belt, fs, bs⟩ := st
  by_cases hd : delta = 0
  · simp [hd]
  · rcases hr : rebuild i with s | fb
    · exact absurd (h i) (by rw [hr]; simp)
    · simp [hd, hr]

/-- Length of the miter-vertex list: two vertices per interior point of
the padded polyline. -/
theorem miterPoints_length (M : MathFns F) (hw : F) :
    ∀ l : List (Vec2 F), (miterPoints M hw l).length = 2 * (l.length - 2)
  | p1 :: p2 :: p3 :: rest => by
    rw [miterPoints]
    simp only [List.length_cons]
    rw [miterPoints_length M hw (p2 :: p3 :: rest)]
    simp only [List.length_cons]
    omega
  | [] => by simp [miterPoints]
  | [_] => by simp [miterPoints]
  | [_, _] => by simp [miterPoints]
termination_by l => l.length

/-- Length of the padded polyline: the input plus the two virtual
neighbours. -/
theorem wideLinePad_length (M : MathFns F) (pts : List (Vec2 F)) (hw : F)
    (le : Bool) : (wideLinePad M pts hw le).length = pts.length + 2 := by
  unfold wideLinePad
  cases le <;> simp [modLast]

/-- The widened line has `2 * points.size()` vertices. -/
theorem make_wide_line_pos_length (M : MathFns F) (pts : List (Vec2 F))
    (w : F) (le : Bool) :
    ((make_wide_line M pts w le).2).length = 2 * pts.length := by
  unfold make_wide_line
  simp only [to_3d, List.length_map, miterPoints_length, wideLinePad_length]
  omega

/-- Length of the even-index selection. -/
theorem forwardEvens_length : ∀ l : List α,
    (forwardEvens l).length = (l.length + 1) / 2
  | [] => by simp [forwardEvens]
  | [_] => by simp [forwardEvens]
  | _ :: _ :: rest => by
    simp only [forwardEvens, List.length_cons]
    rw [forwardEvens_length rest]
    omega

/-- The even-index selection distributes over an append at an even cut. -/
theorem forwardEvens_append_even : ∀ xs ys : List α, xs.length % 2 = 0 →
    forwardEvens (xs ++ ys) = forwardEvens xs ++ forwardEvens ys
  | [], _, _ => rfl
  | [_], _, h => by simp at h
  | a :: b :: rest, ys, h => by
    have hr : rest.length % 2 = 0 := by
      simp only [List.length_cons] at h
      omega
    simp only [List.cons_append, forwardEvens]
    exact congrArg (a :: ·) (forwardEvens_append_even rest ys hr)

/-- For even-length lists, the backward re-sequencing loop returns exactly
the odd-index elements in reverse order. -/
theorem forwardEvens_reverse_even : ∀ l : List α, l.length % 2 = 0 →
    forwardEvens l.reverse = (forwardEvens l.tail).reverse
  | [], _ => rfl
  | [_], h => by simp at h
  | a :: b :: rest, h => by
    have hr : rest.length % 2 = 0 := by
      simp only [List.length_cons] at h
      omega
    have happ : (a :: b :: rest).reverse = rest.reverse ++ [b, a] := by simp
    rw [happ, forwardEvens_append_even _ _ (by simpa using hr),
      forwardEvens_reverse_even rest hr]
    cases rest with
    | nil => rfl
    | cons c rest2 => simp [forwardEvens]

/-- The backward loop of `make_wide_line_border` on an even-size vertex
list: the odd-index (left-side) vertices, backward. -/
theorem backwardStep2_even (l : List α) (h : l.length % 2 = 0) :
    backwardStep2 l = (oddSlots l).reverse :=
  forwardEvens_reverse_even l h

/-- The re-sequenced border has `2 * points.size()` vertices. -/
theorem make_wide_line_border_length (M : MathFns F) (pts : List (Vec2 F))
    (w : F) (le : Bool) :
    (make_wide_line_border M pts w le).length = 2 * pts.length := by
  unfold make_wide_line_border backwardStep2
  simp only [List.length_append, forwardEvens_length, List.length_reverse,
    make_wide_line_pos_length]
  omega

/-- Closed form of the cross-gabled ridge loop: iteration `t` emits the
averaged pair `(border[i+1+t], border[j-1-t])` raised by `ch`. -/
theorem gabledLoop_ridges (border : List (Vec3 F)) (ch : F) :
    ∀ (n : ℕ) (i j psize : ℤ), (j - i).toNat ≤ n →
      (gabledLoop border ch i j psize).1 =
        (List.range ((j - i - 1).toNat / 2)).map fun t : ℕ =>
          vecAddY ((posAt border (i + 1 + (t : ℤ)) +
            posAt border (j - 1 - (t : ℤ))) / (2 : F)) ch := by
  intro n
  induction n with
  | zero =>
    intro i j psize h
    rw [gabledLoop, if_neg (by omega)]
    have : (j - i - 1).toNat / 2 = 0 := by omega
    rw [this]
    rfl
  | succ n ih =>
    intro i j psize h
    by_cases hc : i < j - 2
    · rw [gabledLoop, if_pos hc]
      dsimp only
      rw [ih (i + 1) (j - 1) (psize + 1) (by omega)]
      have hK : (j - i - 1).toNat / 2 = ((j - 1 - (i + 1) - 1).toNat / 2) + 1 := by
        omega
      rw [hK, List.range_succ_eq_map, List.map_cons, List.map_map]
      congr 1
      · push_cast
        ring_nf
      · refine List.map_congr_left fun t ht => ?_
        simp only [Function.comp]
        push_cast
        ring_nf
    · rw [gabledLoop, if_neg hc]
      have : (j - i - 1).toNat / 2 = 0 := by omega
      rw [this]
      rfl

/-! ## Claim theorems -/

/-- C2: for each polygon side of length `W`, with `w` the wider window mesh
width, `eps` the edge clearance and `s` the inter-window spacing,
`make_windows` computes the slot count as
`n = floor((W - w - 2*eps)/(w + s)) + 1` when `w + 2*eps < W` and `n = 0`
otherwise; sides with zero windows are skipped (the per-side lambda returns
without adding instances or consuming draws); when windows fit they are
re-spread uniformly with `s' = (W - 2*eps - n*w)/(n - 1)`, which places the
last slot symmetrically to the first; in particular `W = 10, w = 2,
eps = 0.5, s = 1` yields `n = 3` and `s' = 1.5`. -/
theorem C2_window_slot_count :
    (∀ W w eps s : ℝ, 0 < w → 0 ≤ s →
      num_windows W w eps s =
        if w + 2 * eps < W then ⌊(W - w - 2 * eps) / (w + s)⌋ + 1 else 0) ∧
    (∀ (M : MathFns ℝ) (pars : BuildingParams ℝ) (i : ℕ) (p1 p2 : Vec2 ℝ)
      (acc : WinAcc ℝ),
      num_windows (length2 M (p2 - p1)) (window_width pars.win_pars)
        pars.win_pars.windows_distance_from_edges
        pars.win_pars.windows_distance ≤ 0 →
      windows_for_side M pars i p1 p2 acc = .ok acc) ∧
    (∀ (W w eps : ℝ) (n : ℤ), 2 ≤ n →
      eps + w / 2 + (w + respread_spacing W w eps n) * ((n : ℝ) - 1) =
        W - eps - w / 2) ∧
    num_windows (10 : ℝ) 2 (1/2) 1 = 3 ∧
    respread_spacing (10 : ℝ) 2 (1/2) 3 = 3/2 := by
  refine ⟨?_, ?_, ?_, ?_, ?_⟩
  · intro W w eps s hw hs
    unfold num_windows cppInt
    by_cases h : w + 2 * eps ≥ W
    · rw [if_pos h, if_neg (not_lt.mpr h)]
    · push_neg at h
      rw [if_neg (not_le.mpr (by linarith)), if_pos h,
        if_pos (div_nonneg (by linarith) (by linarith))]
  · intro M pars i p1 p2 acc h
    unfold windows_for_side
    simp only [if_pos h]
  · intro W w eps n hn
    have h1 : ((n : ℝ) - 1) ≠ 0 := by
      have : (2 : ℝ) ≤ (n : ℝ) := by exact_mod_cast hn
      linarith
    unfold respread_spacing
    field_simp
    ring
  · norm_num [num_windows, cppInt]
  · norm_num [respread_spacing]

/-- Witness for `C2_window_slot_count`: its hypotheses are satisfiable; the
slot-count formula instantiated at `W = 10, w = 2, eps = 0.5, s = 1`. -/
theorem C2_window_slot_count_witness :
    num_windows (10 : ℝ) 2 (1/2) 1 =
      if (2 : ℝ) + 2 * (1/2) < 10 then ⌊((10 : ℝ) - 2 - 2 * (1/2)) / (2 + 1)⌋ + 1
      else 0 :=
  C2_window_slot_count.1 10 2 (1/2) 1 (by norm_num) (by norm_num)

/-- C5 (counterexample): the claim "for every floor-shape mode, the
floor/belt builder raises an invalid-argument error exactly when the floor
count is zero, the floor height is non-positive, the belt height is
negative, or the belt additional width is non-positive" is false: the
regular-mode builder performs no such validation at all, so with
`num_floors = 0` (and otherwise valid dimensions) it returns normally
instead of failing. -/
theorem C5_regular_num_floors_zero_no_error :
    isOkE (make_floors_from_regular (F := ℝ) realFns (fun _ _ => [])
      (fun b _ => b) (fun b _ => [b]) 4 1 0 0 1 (1/10) (1/10) 0) = true := by
  rfl

/-- The border-mode floor builder returns normally when its validation
passes. -/
theorem floors_border_ok (cdtO : CdtService F) (expandO : ExpandService F)
    (offsetO : OffsetService F) (fb : List (Vec2 F)) (nf : ℕ) (fh bh baw d : F)
    (hc : ¬(nf ≤ 0 ∨ fh ≤ 0 ∨ bh < 0 ∨ baw ≤ 0)) :
    isOkE (__make_floors_from_border cdtO expandO offsetO fb nf fh bh baw d) =
      true := by
  unfold __make_floors_from_border
  rw [if_neg hc]
  simp only [except_pure_def, except_bind_ok]
  exact isOkE_bind
    (isOkE_foldlM _ (floorsStep_isOk fh bh d _ fun i => by simp) _ _)
    (fun fin => by simp)

/-- The main-points floor builder returns normally when its validation
passes. -/
theorem floors_main_points_ok (M : MathFns F) (cdtO : CdtService F)
    (expandO : ExpandService F) (offsetO : OffsetService F)
    (pts : List (Vec2 F)) (fw : F) (nf : ℕ) (fh bh baw d : F)
    (hc : ¬(fw ≤ 0 ∨ nf ≤ 0 ∨ fh ≤ 0 ∨ bh < 0 ∨ baw < 0)) :
    isOkE (make_floors_from_main_points M cdtO expandO offsetO pts fw nf fh bh
      baw d) = true := by
  unfold make_floors_from_main_points
  rw [if_neg hc]
  simp only [except_pure_def, except_bind_ok]
  exact isOkE_bind
    (isOkE_foldlM _ (floorsStep_isOk fh bh d _ fun i => by simp) _ _)
    (fun fin => by simp)

/-- The regular-mode floor builder returns normally whenever the polygon
has at least 3 sides (it performs no floor/belt validation). -/
theorem floors_regular_ok (M : MathFns F) (cdtO : CdtService F)
    (expandO : ExpandService F) (offsetO : OffsetService F) (ns : ℕ)
    (r a : F) (nf : ℕ) (fh bh baw d : F) (h3 : ¬((ns : ℤ) ≤ 2)) :
    isOkE (make_floors_from_regular M cdtO expandO offsetO ns r a nf fh bh baw
      d) = true := by
  unfold make_floors_from_regular
  unfold make_regular_polygon
  rw [if_neg h3]
  simp only [except_pure_def, except_bind_ok]
  refine isOkE_bind (isOkE_foldlM _ (floorsStep_isOk fh bh d _ fun i => ?_) _ _)
    (fun fin => by simp)
  rw [if_neg h3]
  simp

/-- C5 (amended): the validation each floor builder actually performs.
The border-mode builder fails exactly when the floor count is zero, the
floor height is non-positive, the belt height is negative, or the belt
additional width is non-positive; the main-points builder additionally
rejects a non-positive floor width but accepts a zero belt additional
width (it only rejects negative ones); the regular-mode builder performs
no floor/belt validation and fails exactly when the polygon has fewer
than 3 sides.  For all other inputs each builder returns normally. -/
theorem C5_floor_builder_validation :
    (∀ (cdtO : CdtService ℝ) (expandO : ExpandService ℝ)
      (offsetO : OffsetService ℝ) (fb : List (Vec2 ℝ)) (nf : ℕ)
      (fh bh baw d : ℝ),
      isOkE (__make_floors_from_border cdtO expandO offsetO fb nf fh bh baw d) =
        false ↔ (nf = 0 ∨ fh ≤ 0 ∨ bh < 0 ∨ baw ≤ 0)) ∧
    (∀ (M : MathFns ℝ) (cdtO : CdtService ℝ) (expandO : ExpandService ℝ)
      (offsetO : OffsetService ℝ) (pts : List (Vec2 ℝ)) (fw : ℝ) (nf : ℕ)
      (fh bh baw d : ℝ),
      isOkE (make_floors_from_main_points M cdtO expandO offsetO pts fw nf fh
        bh baw d) = false ↔
        (fw ≤ 0 ∨ nf = 0 ∨ fh ≤ 0 ∨ bh < 0 ∨ baw < 0)) ∧
    (∀ (M : MathFns ℝ) (cdtO : CdtService ℝ) (expandO : ExpandService ℝ)
      (offsetO : OffsetService ℝ) (ns : ℕ) (r a : ℝ) (nf : ℕ)
      (fh bh baw d : ℝ),
      isOkE (make_floors_from_regular M cdtO expandO offsetO ns r a nf fh bh
        baw d) = false ↔ ns < 3) := by
  refine ⟨?_, ?_, ?_⟩
  · intro cdtO expandO offsetO fb nf fh bh baw d
    by_cases hc : nf ≤ 0 ∨ fh ≤ 0 ∨ bh < 0 ∨ baw ≤ 0
    · rw [iff_true_right (by simpa [Nat.le_zero] using hc)]
      unfold __make_floors_from_border
      rw [if_pos hc]
      rfl
    · rw [floors_border_ok cdtO expandO offsetO fb nf fh bh baw d hc]
      simp only [Bool.true_eq_false, false_iff]
      simpa [Nat.le_zero] using hc
  · intro M cdtO expandO offsetO pts fw nf fh bh baw d
    by_cases hc : fw ≤ 0 ∨ nf ≤ 0 ∨ fh ≤ 0 ∨ bh < 0 ∨ baw < 0
    · rw [iff_true_right (by simpa [Nat.le_zero] using hc)]
      unfold make_floors_from_main_points
      rw [if_pos hc]
      rfl
    · rw [floors_main_points_ok M cdtO expandO offsetO pts fw nf fh bh baw d hc]
      simp only [Bool.true_eq_false, false_iff]
      simpa [Nat.le_zero] using hc
  · intro M cdtO expandO offsetO ns r a nf fh bh baw d
    by_cases h3 : (ns : ℤ) ≤ 2
    · rw [iff_true_right (by omega)]
      unfold make_floors_from_regular make_regular_polygon
      rw [if_pos h3]
      rfl
    · rw [floors_regular_ok M cdtO expandO offsetO ns r a nf fh bh baw d h3]
      simp only [Bool.true_eq_false, false_iff]
      omega

/-- C10: when `width_delta_per_floor` is nonzero (indeed, always),
`make_roof_from_params` builds the roof from the top floor's footprint
rather than the ground floor's: main-point roofs (cross-gabled, with its
optional thickness shell, cross-hipped, and pyramid) use
`floor_width + width_delta_per_floor * (num_floors - 1)` as the width,
border-mode pyramids use the border offset by
`width_delta_per_floor * (num_floors - 1)`, and regular-mode pyramids use
`radius + width_delta_per_floor * (num_floors - 1)`; all sit at the
building's stacked height. -/
theorem C10_roof_uses_top_floor_footprint
    (M : MathFns ℝ) (cdtO : CdtService ℝ) (offsetO : OffsetService ℝ)
    (mergeO : MergeService ℝ) (p : BuildingParams ℝ)
    (h1 : 1 ≤ p.num_floors) (h2 : p.num_floors < 4294967296) :
    (p.roof_pars.type = RoofType.crossgabled → p.type = BuildingType.main_points →
      make_roof_from_params M cdtO offsetO mergeO p = do
        let r ← make_roof_crossgabled_simple M p.floor_main_points
          (p.floor_width + p.width_delta_per_floor * ((p.num_floors - 1 : ℕ) : ℝ))
          p.roof_pars.roof_angle
          (get_building_height p.num_floors p.floor_height p.belt_height)
        let t ←
          if p.roof_pars.thickness > 0 then
            make_roof_crossgabled_thickness M p.floor_main_points
              (p.floor_width + p.width_delta_per_floor * ((p.num_floors - 1 : ℕ) : ℝ))
              p.roof_pars.roof_angle p.roof_pars.thickness
              p.roof_pars.rake_overhang p.roof_pars.roof_overhang
              (get_building_height p.num_floors p.floor_height p.belt_height)
          else pure emptyShape
        return (r, t)) ∧
    (p.roof_pars.type = RoofType.crosshipped → p.type = BuildingType.main_points →
      make_roof_from_params M cdtO offsetO mergeO p = do
        let r ← make_roof_crosshipped_simple M p.floor_main_points
          (p.floor_width + p.width_delta_per_floor * ((p.num_floors - 1 : ℕ) : ℝ))
          p.roof_pars.roof_angle p.roof_pars.hip_depth
          (get_building_height p.num_floors p.floor_height p.belt_height)
        return (r, emptyShape)) ∧
    (p.roof_pars.type = RoofType.pyramid → p.type = BuildingType.main_points →
      make_roof_from_params M cdtO offsetO mergeO p = .ok
        (make_roof_pyramid_from_main_points M cdtO mergeO p.floor_main_points
          (p.floor_width + p.width_delta_per_floor * ((p.num_floors - 1 : ℕ) : ℝ))
          p.roof_pars.roof_height
          (get_building_height p.num_floors p.floor_height p.belt_height),
         emptyShape)) ∧
    (p.roof_pars.type = RoofType.pyramid → p.type = BuildingType.border →
      make_roof_from_params M cdtO offsetO mergeO p = .ok
        (make_roof_pyramid_from_border cdtO mergeO
          ((offsetO p.floor_border
              (p.width_delta_per_floor * ((p.num_floors - 1 : ℕ) : ℝ))).headD [])
          p.roof_pars.roof_height
          (get_building_height p.num_floors p.floor_height p.belt_height),
         emptyShape)) ∧
    (p.roof_pars.type = RoofType.pyramid → p.type = BuildingType.regular →
      make_roof_from_params M cdtO offsetO mergeO p = do
        let border ← make_regular_polygon M (p.num_sides : ℤ)
          (p.radius + p.width_delta_per_floor * ((p.num_floors - 1 : ℕ) : ℝ))
          (cppBool p.reg_base_angle)
        return (make_roof_pyramid_from_border cdtO mergeO border
          p.roof_pars.roof_height
          (get_building_height p.num_floors p.floor_height p.belt_height),
         emptyShape)) := by
  have hu : usub1 p.num_floors = p.num_floors - 1 := by
    unfold usub1
    omega
  refine ⟨?_, ?_, ?_, ?_, ?_⟩ <;> intro hr ht <;>
    unfold make_roof_from_params <;>
    simp only [hr, ht, hu, ne_eq, not_true_eq_false, if_false, reduceCtorEq,
      ite_false]
  all_goals rfl

/-- Witness for `C10_roof_uses_top_floor_footprint`: its hypotheses are
satisfiable at the concrete two-floor pyramid building. -/
theorem C10_roof_uses_top_floor_footprint_witness :
    make_roof_from_params realFns (fun _ _ => []) (fun b _ => [b]) id
      exampleParams = .ok
      (make_roof_pyramid_from_main_points realFns (fun _ _ => []) id
        exampleParams.floor_main_points
        (exampleParams.floor_width + exampleParams.width_delta_per_floor *
          ((exampleParams.num_floors - 1 : ℕ) : ℝ))
        exampleParams.roof_pars.roof_height
        (get_building_height exampleParams.num_floors exampleParams.floor_height
          exampleParams.belt_height),
       emptyShape) :=
  (C10_roof_uses_top_floor_footprint realFns (fun _ _ => []) (fun b _ => [b]) id
    exampleParams (by decide) (by decide)).2.2.1 rfl rfl

/-- C8: `make_building` is deterministic — it is a pure function of the
parameter record, the external services and the RNG state (the embedding
threads the RNG stream and its position explicitly, and no other state
exists), so two runs from identical RNG states produce identical instance
lists (same vertex positions, instance count, names, chosen open/closed
shapes and frames) and identical final RNG states. -/
theorem C8_make_building_deterministic (M : MathFns ℝ) (cdtO : CdtService ℝ)
    (expandO : ExpandService ℝ) (offsetO : OffsetService ℝ)
    (mergeO : MergeService ℝ) (p : BuildingParams ℝ) (r1 r2 : Rng ℝ)
    (hstream : ∀ n, r1.stream n = r2.stream n) (hidx : r1.idx = r2.idx) :
    make_building M cdtO expandO offsetO mergeO p r1 =
      make_building M cdtO expandO offsetO mergeO p r2 := by
  have h : r1 = r2 := by
    cases r1
    cases r2
    simp only [Rng.mk.injEq]
    exact ⟨funext hstream, hidx⟩
  rw [h]

/-- Witness for `C8_make_building_deterministic`: its hypotheses are
satisfiable (two identical RNG states). -/
theorem C8_make_building_deterministic_witness :
    make_building realFns (fun _ _ => []) (fun b _ => b) (fun b _ => [b]) id
      exampleParams ⟨fun _ => 0, 0⟩ =
    make_building realFns (fun _ _ => []) (fun b _ => b) (fun b _ => [b]) id
      exampleParams ⟨fun _ => 0, 0⟩ :=
  C8_make_building_deterministic realFns (fun _ _ => []) (fun b _ => b)
    (fun b _ => [b]) id exampleParams ⟨fun _ => 0, 0⟩ ⟨fun _ => 0, 0⟩
    (fun _ => rfl) rfl

/-- C4: `make_roof_crossgabled_simple` throws its invalid-angle error if
and only if `roof_angle ≤ 0` or `roof_angle ≥ pi/2`; for every angle in
`(0, pi/2)` and every main-point spine (at least 2 points, per the spec's
caller obligation) it succeeds, the resulting mesh has `2P` boundary plus
`P` ridge vertices, and ridge vertex `k` is the average of the paired
boundary vertices `border[k]` and `border[2P-1-k]` raised vertically by
`center_height = tan(roof_angle) * floor_width / 2`. -/
theorem C4_crossgabled_angle_and_ridge :
    (∀ (pts : List (Vec2 ℝ)) (w angle bh : ℝ),
      isOkE (make_roof_crossgabled_simple realFns pts w angle bh) = false ↔
        (angle ≤ 0 ∨ Real.pi / 2 ≤ angle)) ∧
    (∀ (pts : List (Vec2 ℝ)) (w angle : ℝ), 2 ≤ pts.length → 0 < angle →
      angle < Real.pi / 2 →
      ∃ shp, make_roof_crossgabled_simple realFns pts w angle 0 = .ok shp ∧
        shp.pos.length = 3 * pts.length ∧
        ∀ k : ℕ, k < pts.length →
          shp.pos.getD (2 * pts.length + k) ⟨0, 0, 0⟩ =
            vecAddY ((posAt (make_wide_line_border realFns pts w) (k : ℤ) +
              posAt (make_wide_line_border realFns pts w)
                ((2 * pts.length : ℤ) - 1 - (k : ℤ))) / (2 : ℝ))
              (Real.tan angle * w / 2)) := by
  constructor
  · intro pts w angle bh
    unfold make_roof_crossgabled_simple
    rw [show realFns.piF = Real.pi from rfl]
    by_cases hcond : angle ≤ 0 ∨ Real.pi / 2 ≤ angle
    · rw [if_pos hcond]
      simp [hcond]
    · rw [if_neg hcond]
      simp [hcond]
  · intro pts w angle hlen h0 h1
    unfold make_roof_crossgabled_simple
    rw [if_neg (by
      rw [show realFns.piF = Real.pi from rfl]
      push_neg
      exact ⟨h0, h1⟩)]
    set border := make_wide_line_border realFns pts w with hborder
    have hblen : border.length = 2 * pts.length :=
      make_wide_line_border_length realFns pts w false
    have hcount : ((((border.length : ℤ) - 1) - 0 - 1).toNat / 2) =
        pts.length - 1 := by
      rw [hblen]
      omega
    refine ⟨_, rfl, ?_, ?_⟩
    · dsimp only
      rw [if_neg (by norm_num)]
      rw [gabledLoop_ridges border _ ((((border.length : ℤ) - 1) - 0).toNat)
        0 ((border.length : ℤ) - 1) ((border.length : ℤ) + 1) le_rfl]
      simp only [List.length_append, List.length_cons, List.length_nil,
        List.length_map, List.length_range, hblen, hcount]
      omega
    · intro k hk
      dsimp only
      rw [if_neg (by norm_num)]
      rw [gabledLoop_ridges border _ ((((border.length : ℤ) - 1) - 0).toNat)
        0 ((border.length : ℤ) - 1) ((border.length : ℤ) + 1) le_rfl]
      rw [List.append_assoc]
      rw [List.getD_append_right _ _ _ _ (by rw [hblen]; omega)]
      rw [show 2 * pts.length + k - border.length = k by rw [hblen]; omega,
        List.singleton_append]
      cases k with
      | zero =>
        simp only [List.getD_cons_zero]
        rw [show realFns.tanF angle = Real.tan angle from rfl]
        rw [show ((border.length : ℤ) - 1) = (2 * pts.length : ℤ) - 1 - ((0 : ℕ) : ℤ) by
          rw [hblen]; push_cast; ring]
        norm_num
      | succ k2 =>
        simp only [List.getD_cons_succ]
        rw [List.getD_eq_getElem?_getD, List.getElem?_map,
          List.getElem?_range (by rw [hcount]; omega)]
        simp only [Option.map_some', Option.getD_some]
        rw [show realFns.tanF angle = Real.tan angle from rfl, hblen]
        push_cast
        ring_nf

/-- Witness for `C4_crossgabled_angle_and_ridge`: its hypotheses are
satisfiable at a 2-point spine with `roof_angle = pi/4`. -/
theorem C4_crossgabled_angle_and_ridge_witness :
    ∃ shp, make_roof_crossgabled_simple realFns [⟨0, 0⟩, ⟨10, 0⟩] 5
        (Real.pi / 4) 0 = .ok shp ∧
      shp.pos.length = 3 * ([⟨0, 0⟩, ⟨10, 0⟩] : List (Vec2 ℝ)).length ∧
      ∀ k : ℕ, k < ([⟨0, 0⟩, ⟨10, 0⟩] : List (Vec2 ℝ)).length →
        shp.pos.getD (2 * ([⟨0, 0⟩, ⟨10, 0⟩] : List (Vec2 ℝ)).length + k)
            ⟨0, 0, 0⟩ =
          vecAddY
            ((posAt (make_wide_line_border realFns [⟨0, 0⟩, ⟨10, 0⟩] 5) (k : ℤ) +
              posAt (make_wide_line_border realFns [⟨0, 0⟩, ⟨10, 0⟩] 5)
                ((2 * ([⟨0, 0⟩, ⟨10, 0⟩] : List (Vec2 ℝ)).length : ℤ) - (k : ℤ) - 1))
              / (2 : ℝ))
            (Real.tan (Real.pi / 4) * 5 / 2) := by
  have h := C4_crossgabled_angle_and_ridge.2 [⟨0, 0⟩, ⟨10, 0⟩] 5 (Real.pi / 4)
    (by norm_num) (by positivity) (by linarith [Real.pi_pos])
  obtain ⟨shp, h1, h2, h3⟩ := h
  exact ⟨shp, h1, h2, fun k hk => by rw [h3 k hk]; ring_nf⟩

/-- C3 (counterexample): `make_regular_polygon` has no base-angle
parameter — its third parameter is the boolean `xy_aligned`, and the call
sites in `building_utils.h` (e.g. `make_floors_from_regular`) pass their
float `base_angle` through the C++ float-to-bool conversion.  With
`num_sides = 4`, `radius = 1` and a requested base angle of `pi/2`, the
first returned point is at angle `pi/4`, not at `pi/2` as the claim
states. -/
theorem C3_base_angle_counterexample :
    (make_regular_polygon realFns 4 1 (cppBool (Real.pi / 2))).toOption.bind
        List.head? ≠
      some ⟨Real.cos (Real.pi / 2) * 1, Real.sin (Real.pi / 2) * 1⟩ := by
  have hb : cppBool (Real.pi / 2) = true := by
    unfold cppBool
    rw [if_neg (by positivity)]
  rw [hb]
  unfold make_regular_polygon
  rw [if_neg (by norm_num)]
  rw [show List.range ((4 : ℤ)).toNat = [0, 1, 2, 3] from rfl]
  simp only [Except.toOption, List.map_cons, List.head?_cons, Option.some_bind]
  intro h
  rw [Option.some_inj, Vec2.mk.injEq] at h
  obtain ⟨hx, -⟩ := h
  rw [show realFns.cosF = Real.cos from rfl] at hx
  simp only [if_true] at hx
  rw [show (((0 : ℕ) : ℝ) * (2 * realFns.piF / ((4 : ℤ) : ℝ)) +
      2 * realFns.piF / ((4 : ℤ) : ℝ) / 2) = Real.pi / 4 from by
    rw [show realFns.piF = Real.pi from rfl]
    push_cast
    ring] at hx
  rw [Real.cos_pi_div_four, Real.cos_pi_div_two] at hx
  have h2 : Real.sqrt 2 ≠ 0 := by positivity
  exact h2 (by linarith)

/-- C3 (amended): `make_regular_polygon(num_sides, radius, xy_aligned)`
returns exactly `num_sides` points; point `i` lies at angle
`i * (2*pi/num_sides) + angle0` where `angle0` is `0` when not aligned and
`(2*pi/num_sides)/2` when aligned — consecutive angular spacing is
`2*pi/num_sides`, and the first point is at `angle0`, not at a caller-chosen
base angle; for `radius ≥ 0` every point is at Euclidean distance `radius`
from the origin; it fails with the invalid-argument error if and only if
`num_sides < 3`. -/
theorem C3_regular_polygon_properties :
    (∀ (n : ℤ) (r : ℝ) (al : Bool),
      isOkE (make_regular_polygon realFns n r al) = false ↔ n < 3) ∧
    (∀ (n : ℤ) (r : ℝ) (al : Bool) (l : List (Vec2 ℝ)),
      make_regular_polygon realFns n r al = .ok l →
      l.length = n.toNat ∧
      (∀ i : ℕ, i < n.toNat →
        l.getD i ⟨0, 0⟩ =
          ⟨Real.cos ((i : ℝ) * (2 * Real.pi / (n : ℝ)) +
              (if al then 2 * Real.pi / (n : ℝ) / 2 else 0)) * r,
           Real.sin ((i : ℝ) * (2 * Real.pi / (n : ℝ)) +
              (if al then 2 * Real.pi / (n : ℝ) / 2 else 0)) * r⟩) ∧
      (0 ≤ r → ∀ i : ℕ, i < n.toNat →
        Real.sqrt ((l.getD i ⟨0, 0⟩).x ^ 2 + (l.getD i ⟨0, 0⟩).y ^ 2) = r)) := by
  constructor
  · intro n r al
    unfold make_regular_polygon
    by_cases h : n ≤ 2
    · rw [if_pos h]
      simp only [isOkE_error]
      exact iff_of_true (by trivial) (by omega)
    · rw [if_neg h]
      simp only [isOkE_ok]
      exact iff_of_false (by simp) (by omega)
  · intro n r al l hok
    unfold make_regular_polygon at hok
    by_cases h : n ≤ 2
    · rw [if_pos h] at hok
      exact absurd hok (by simp)
    · rw [if_neg h] at hok
      simp only [Except.ok.injEq] at hok
      subst hok
      have key : ∀ θ : ℝ, 0 ≤ r →
          Real.sqrt ((Real.cos θ * r) ^ 2 + (Real.sin θ * r) ^ 2) = r := by
        intro θ hr
        have hcs := Real.sin_sq_add_cos_sq θ
        rw [show (Real.cos θ * r) ^ 2 + (Real.sin θ * r) ^ 2 = r ^ 2 by nlinarith]
        exact Real.sqrt_sq hr
      refine ⟨by simp, ?_, ?_⟩
      · intro i hi
        rw [List.getD_eq_getElem?_getD, List.getElem?_map, List.getElem?_range hi]
        rfl
      · intro hr i hi
        rw [List.getD_eq_getElem?_getD, List.getElem?_map, List.getElem?_range hi]
        exact key _ hr

/-- Witness for `C3_regular_polygon_properties`: its hypotheses are
satisfiable: the square with `radius = 1`, not aligned. -/
theorem C3_regular_polygon_properties_witness :
    isOkE (make_regular_polygon realFns 4 1 false) = false ↔ (4 : ℤ) < 3 :=
  C3_regular_polygon_properties.1 4 1 false

/-- C7 (amended): for every polyline of at least 2 points and every width,
`make_wide_line_border` returns a closed polygon boundary with exactly
`2 * points.size()` vertices, sequenced as the right-side (even-index)
vertices of the widened quad strip in forward order followed by the
left-side (odd-index) vertices in backward order.  The boundary is *not*
guaranteed to be a simple polygon: the source assumes simplicity
("It is currently assumed that the resulting polygon will be simple") and
degenerate polylines violate it (see the counterexample). -/
theorem C7_wide_line_border_structure (M : MathFns ℝ) (pts : List (Vec2 ℝ))
    (w : ℝ) (hlen : 2 ≤ pts.length) :
    (make_wide_line_border M pts w false).length = 2 * pts.length ∧
    make_wide_line_border M pts w false =
      forwardEvens (make_wide_line M pts w false).2 ++
        (oddSlots (make_wide_line M pts w false).2).reverse := by
  refine ⟨make_wide_line_border_length M pts w false, ?_⟩
  unfold make_wide_line_border
  dsimp only
  rw [backwardStep2_even _ (by rw [make_wide_line_pos_length]; omega)]

/-- Witness for `C7_wide_line_border_structure`: its hypothesis is
satisfiable at a 2-point polyline. -/
theorem C7_wide_line_border_structure_witness :
    (make_wide_line_border realFns [⟨0, 0⟩, ⟨10, 0⟩] 5 false).length =
      2 * ([⟨0, 0⟩, ⟨10, 0⟩] : List (Vec2 ℝ)).length ∧
    make_wide_line_border realFns [⟨0, 0⟩, ⟨10, 0⟩] 5 false =
      forwardEvens (make_wide_line realFns [⟨0, 0⟩, ⟨10, 0⟩] 5 false).2 ++
        (oddSlots (make_wide_line realFns [⟨0, 0⟩, ⟨10, 0⟩] 5 false).2).reverse :=
  C7_wide_line_border_structure realFns [⟨0, 0⟩, ⟨10, 0⟩] 5 (by norm_num)

/-- C7 (counterexample): the boundary returned by `make_wide_line_border`
need not be a simple polygon.  For the 3-point polyline
`[(0,0), (1,0), (0,0)]` (a valid polyline per the data model, which only
forbids repetition for polygons) with `width = 1`, the boundary repeats
the vertex `(0, 1/2)` (and `(0, -1/2)`), so it is not an "ordered,
non-repeating sequence" and not simple. -/
theorem C7_degenerate_polyline_not_simple :
    ¬ SimplePolygon
        (to_2d (make_wide_line_border realFns [⟨0, 0⟩, ⟨1, 0⟩, ⟨0, 0⟩] 1 false)) := by
  have ha1 : realFns.atan2F 0 1 = 0 := by
    show atan2R 0 1 = 0
    unfold atan2R
    rw [if_pos (by norm_num)]
    norm_num [Real.arctan_zero]
  have ha2 : realFns.atan2F 0 (-1) = Real.pi := by
    show atan2R 0 (-1) = Real.pi
    unfold atan2R
    rw [if_neg (by norm_num), if_pos (by norm_num), if_pos (by norm_num)]
    norm_num [Real.arctan_zero]
  have hpad : wideLinePad (F := ℝ) realFns [⟨0, 0⟩, ⟨1, 0⟩, ⟨0, 0⟩] (1/2) false =
      [⟨-1, 0⟩, ⟨0, 0⟩, ⟨1, 0⟩, ⟨0, 0⟩, ⟨-1, 0⟩] := by
    unfold wideLinePad
    norm_num [Vec2_smul, Vec2_sub]
  have hc1 : realFns.cosF (realFns.piF / 2) = 0 := Real.cos_pi_div_two
  have hs1 : realFns.sinF (realFns.piF / 2) = 1 := Real.sin_pi_div_two
  have hc2 : realFns.cosF (Real.pi / 2 + realFns.piF / 2) = -1 := by
    show Real.cos (Real.pi / 2 + Real.pi / 2) = -1
    rw [show Real.pi / 2 + Real.pi / 2 = Real.pi by ring, Real.cos_pi]
  have hs2 : realFns.sinF (Real.pi / 2 + realFns.piF / 2) = 0 := by
    show Real.sin (Real.pi / 2 + Real.pi / 2) = 0
    rw [show Real.pi / 2 + Real.pi / 2 = Real.pi by ring, Real.sin_pi]
  have hc3 : realFns.cosF (Real.pi + realFns.piF / 2) = 0 := by
    show Real.cos (Real.pi + Real.pi / 2) = 0
    rw [Real.cos_add]
    norm_num
  have hs3 : realFns.sinF (Real.pi + realFns.piF / 2) = -1 := by
    show Real.sin (Real.pi + Real.pi / 2) = -1
    rw [Real.sin_add]
    norm_num
  have hm : miterPoints (F := ℝ) realFns (1/2)
      [⟨-1, 0⟩, ⟨0, 0⟩, ⟨1, 0⟩, ⟨0, 0⟩, ⟨-1, 0⟩] =
      [⟨0, 1/2⟩, ⟨0, -(1/2)⟩, ⟨1/2, 0⟩, ⟨3/2, 0⟩, ⟨0, -(1/2)⟩, ⟨0, 1/2⟩] := by
    simp only [miterPoints, Vec2_sub, Vec2_add, Vec2_smul]
    norm_num [ha1, ha2, hc1, hs1, hc2, hs2, hc3, hs3]
  have hval : to_2d (make_wide_line_border realFns [⟨0, 0⟩, ⟨1, 0⟩, ⟨0, 0⟩] 1 false) =
      [⟨0, 1/2⟩, ⟨1/2, 0⟩, ⟨0, -(1/2)⟩, ⟨0, 1/2⟩, ⟨3/2, 0⟩, ⟨0, -(1/2)⟩] := by
    unfold make_wide_line_border make_wide_line
    rw [show (1 : ℝ) / 2 = (1/2 : ℝ) from rfl] at hpad
    rw [hpad, hm]
    simp [to_2d, to_3d, forwardEvens, backwardStep2, oddSlots]
  rw [hval]
  intro hsp
  obtain ⟨-, hpw, -⟩ := hsp
  simp [List.pairwise_cons] at hpw

/-- C6: the mesh returned by `thicken_polygon` is **not** closed, even for
a simple, non-self-intersecting border and no holes.  Concretely, for the
triangle border `(0,0,0), (1,0,0), (0,0,1)` with thickness `1` (the CDT
service returning the only triangulation, the input triangle itself), the
bottom border edge from `(1,0,0)` to `(0,0,1)` lies on exactly one face:
`triangulate` re-emits the cap vertices through `to_3d` with its default
`flip_z = true`, so both caps are mirrored in `z` and their edges do not
meet the side walls.  Edges are compared geometrically (as unordered
position pairs), which is the only reading under which the claim could
hold at all, since the construction duplicates every cap vertex per
triangle. -/
theorem C6_thicken_polygon_not_closed :
    ¬ IsClosedMesh (thicken_polygon (F := ℚ)
        (fun b _ => match b with | [a, c, d] => [(a, c, d)] | _ => [])
        [⟨0, 0, 0⟩, ⟨1, 0, 0⟩, ⟨0, 0, 1⟩] 1 []) ∧
    edgeCount (shapeEdges (thicken_polygon (F := ℚ)
        (fun b _ => match b with | [a, c, d] => [(a, c, d)] | _ => [])
        [⟨0, 0, 0⟩, ⟨1, 0, 0⟩, ⟨0, 0, 1⟩] 1 []))
      (⟨1, 0, 0⟩, ⟨0, 0, 1⟩) = 1 := by
  have hshape : thicken_polygon (F := ℚ)
      (fun b _ => match b with | [a, c, d] => [(a, c, d)] | _ => [])
      [⟨0, 0, 0⟩, ⟨1, 0, 0⟩, ⟨0, 0, 1⟩] 1 [] =
      { pos := [⟨0, 0, 0⟩, ⟨1, 0, 0⟩, ⟨0, 0, 1⟩, ⟨0, 1, 0⟩, ⟨1, 1, 0⟩, ⟨0, 1, 1⟩,
                ⟨0, 0, 0⟩, ⟨1, 0, 0⟩, ⟨0, 0, -1⟩, ⟨0, 1, 0⟩, ⟨1, 1, 0⟩, ⟨0, 1, -1⟩]
        triangles := [(8, 7, 6), (9, 10, 11)]
        quads := [(0, 1, 4, 3), (1, 2, 5, 4), (2, 0, 3, 5)] } := by
    unfold thicken_polygon triangulate
    norm_num [to_3d, Vec3_add, Vec3_smul, List.range_succ]
  have hedges : shapeEdges (thicken_polygon (F := ℚ)
      (fun b _ => match b with | [a, c, d] => [(a, c, d)] | _ => [])
      [⟨0, 0, 0⟩, ⟨1, 0, 0⟩, ⟨0, 0, 1⟩] 1 []) =
      [((⟨0, 0, -1⟩ : Vec3 ℚ), (⟨1, 0, 0⟩ : Vec3 ℚ)), (⟨1, 0, 0⟩, ⟨0, 0, 0⟩),
       (⟨0, 0, 0⟩, ⟨0, 0, -1⟩),
       (⟨0, 1, 0⟩, ⟨1, 1, 0⟩), (⟨1, 1, 0⟩, ⟨0, 1, -1⟩), (⟨0, 1, -1⟩, ⟨0, 1, 0⟩),
       (⟨0, 0, 0⟩, ⟨1, 0, 0⟩), (⟨1, 0, 0⟩, ⟨1, 1, 0⟩), (⟨1, 1, 0⟩, ⟨0, 1, 0⟩),
       (⟨0, 1, 0⟩, ⟨0, 0, 0⟩),
       (⟨1, 0, 0⟩, ⟨0, 0, 1⟩), (⟨0, 0, 1⟩, ⟨0, 1, 1⟩), (⟨0, 1, 1⟩, ⟨1, 1, 0⟩),
       (⟨1, 1, 0⟩, ⟨1, 0, 0⟩),
       (⟨0, 0, 1⟩, ⟨0, 0, 0⟩), (⟨0, 0, 0⟩, ⟨0, 1, 0⟩), (⟨0, 1, 0⟩, ⟨0, 1, 1⟩),
       (⟨0, 1, 1⟩, ⟨0, 0, 1⟩)] := by
    rw [hshape]
    rfl
  have hcount : edgeCount (shapeEdges (thicken_polygon (F := ℚ)
      (fun b _ => match b with | [a, c, d] => [(a, c, d)] | _ => [])
      [⟨0, 0, 0⟩, ⟨1, 0, 0⟩, ⟨0, 0, 1⟩] 1 []))
      (⟨1, 0, 0⟩, ⟨0, 0, 1⟩) = 1 := by
    rw [hedges]
    norm_num [edgeCount, Prod.mk.injEq, Vec3.mk.injEq, Prod.ext_iff]
  refine ⟨?_, hcount⟩
  intro h
  have hm : ((⟨1, 0, 0⟩ : Vec3 ℚ), (⟨0, 0, 1⟩ : Vec3 ℚ)) ∈
      shapeEdges (thicken_polygon (F := ℚ)
        (fun b _ => match b with | [a, c, d] => [(a, c, d)] | _ => [])
        [⟨0, 0, 0⟩, ⟨1, 0, 0⟩, ⟨0, 0, 1⟩] 1 []) := by
    rw [hedges]
    simp
  have h2 := h _ hm
  rw [hcount] at h2
  exact absurd h2 (by norm_num)

theorem sqrt64 : Real.sqrt 64 = 8 := by
  rw [show (64 : ℝ) = 8 ^ 2 by norm_num, Real.sqrt_sq (by norm_num)]

theorem window_width_winShape4 : window_width zeroFillWinPars = 4 := by
  unfold window_width get_size zeroFillWinPars winShape4
  norm_num [Vec3_sub]

theorem num_windows_square : num_windows (8 : ℝ) 4 1 0 = 1 := by
  norm_num [num_windows, cppInt]

/-- Evaluation of the per-side window placement on a side of length 8 of
the C1 square building, with all draws `1/2`: exactly one window is
placed (the slot count is 1, and with `filled_spots_` ratio `0` the
Bernoulli draw `1/2 > 0` *fills* the slot), consuming two draws. -/
theorem squareBuilding_side_eval (p1 p2 : Vec2 ℝ)
    (hW : length2 realFns (p2 - p1) = 8) (wid : ℕ) (ws : List (Instance ℝ))
    (k : ℕ) :
    windows_for_side realFns squareBuilding 0 p1 p2
        ⟨wid, ws, ⟨fun _ => 1/2, k⟩⟩ =
      .ok ⟨wid + 1, ws ++
        [{ name := "wnd" ++ "_" ++ toString wid
           shp := winShape4
           mat := none
           frame :=
             { x := rotate_y realFns identity_frame.x (get_angle realFns (p2 - p1))
               y := identity_frame.y
               z := rotate_y realFns identity_frame.z (get_angle realFns (p2 - p1))
               o := to_3dPoint (p1 + normalize2 realFns (p2 - p1) * (6:ℝ)) (3/2) } }],
        ⟨fun _ => 1/2, k + 2⟩⟩ := by
  unfold windows_for_side
  dsimp only [squareBuilding]
  rw [hW, window_width_winShape4]
  dsimp only [zeroFillWinPars]
  rw [num_windows_square]
  rw [if_neg (by norm_num)]
  rw [show Int.toNat 1 = 1 from rfl, show List.range 1 = [0] from rfl,
    List.foldlM_cons]
  simp only [List.foldlM_nil]
  unfold bernoulli next_rand1f
  dsimp only
  rw [if_neg (by norm_num : ¬((0:ℝ) < 0 ∨ (0:ℝ) > 1))]
  rw [decide_eq_true (by norm_num : (1:ℝ)/2 > 0)]
  simp only [except_bind_ok]
  norm_num [respread_spacing, bind_pure]

theorem check_win_info_zeroFill :
    check_win_info (F := ℝ) zeroFillWinPars = .ok () := by
  unfold check_win_info zeroFillWinPars
  rw [if_neg (by simp)]

/-- C1: with valid window parameters and `filled_spots_` ratio `0`, the
building gets a window in **every** slot (for the generic RNG state whose
draws are all `1/2`), not zero windows: `bernoulli(p)` returns
`next_rand1f() > p`, i.e. `true` with probability `1 - p`, inverted with
respect to its own doc comment ("true is returned with p probability"),
to the earlier repository revision of `prob_utils.h` (which compared
`<= p`), and to the `make_windows` comment "Keep around f_p_s percent of
windows".  On the one-floor square building whose four sides fit one slot
each, `make_windows` returns 4 window instances. -/
theorem C1_zero_filled_ratio_places_windows :
    ((make_windows realFns (fun b _ => [b]) squareBuilding
        halfStream).toOption.map fun out => out.1.length) = some 4 := by
  have hWa : length2 realFns ((⟨8, 0⟩ : Vec2 ℝ) - ⟨0, 0⟩) = 8 := by
    unfold length2
    rw [show realFns.sqrtF = Real.sqrt from rfl]
    norm_num [Vec2_sub, sqrt64]
  have hWb : length2 realFns ((⟨8, 8⟩ : Vec2 ℝ) - ⟨8, 0⟩) = 8 := by
    unfold length2
    rw [show realFns.sqrtF = Real.sqrt from rfl]
    norm_num [Vec2_sub, sqrt64]
  have hWc : length2 realFns ((⟨0, 8⟩ : Vec2 ℝ) - ⟨8, 8⟩) = 8 := by
    unfold length2
    rw [show realFns.sqrtF = Real.sqrt from rfl]
    norm_num [Vec2_sub, sqrt64]
  have hWd : length2 realFns ((⟨0, 0⟩ : Vec2 ℝ) - ⟨0, 8⟩) = 8 := by
    unfold length2
    rw [show realFns.sqrtF = Real.sqrt from rfl]
    norm_num [Vec2_sub, sqrt64]
  unfold make_windows
  rw [show squareBuilding.win_pars = zeroFillWinPars from rfl,
    check_win_info_zeroFill]
  simp only [except_bind_ok]
  rw [show squareBuilding.num_floors = 1 from rfl,
    show List.range 1 = [0] from rfl, List.foldlM_cons]
  simp only [List.foldlM_nil]
  rw [show windows_border_at_floor realFns (fun b _ => [b]) squareBuilding 0 =
    .ok [⟨0, 0⟩, ⟨8, 0⟩, ⟨8, 8⟩, ⟨0, 8⟩] from rfl]
  simp only [except_bind_ok]
  unfold for_sides
  rw [show ([⟨0, 0⟩, ⟨8, 0⟩, ⟨8, 8⟩, ⟨0, 8⟩] : List (Vec2 ℝ)).zip
      (([⟨0, 0⟩, ⟨8, 0⟩, ⟨8, 8⟩, ⟨0, 8⟩] : List (Vec2 ℝ)).rotate 1) =
      [(⟨0, 0⟩, ⟨8, 0⟩), (⟨8, 0⟩, ⟨8, 8⟩), (⟨8, 8⟩, ⟨0, 8⟩), (⟨0, 8⟩, ⟨0, 0⟩)]
      from by simp [List.rotate]]
  rw [show halfStream = ⟨fun _ => 1/2, 0⟩ from rfl]
  rw [List.foldlM_cons]
  dsimp only
  rw [squareBuilding_side_eval _ _ hWa]
  simp only [except_bind_ok]
  rw [List.foldlM_cons]
  dsimp only
  rw [squareBuilding_side_eval _ _ hWb]
  simp only [except_bind_ok]
  rw [List.foldlM_cons]
  dsimp only
  rw [squareBuilding_side_eval _ _ hWc]
  simp only [except_bind_ok]
  rw [List.foldlM_cons]
  dsimp only
  rw [squareBuilding_side_eval _ _ hWd]
  simp only [except_bind_ok, List.foldlM_nil]
  simp
  exact ⟨_, ⟨_, rfl⟩, rfl⟩

theorem sqrt100 : Real.sqrt 100 = 10 := by
  rw [show (100 : ℝ) = 10 ^ 2 by norm_num, Real.sqrt_sq (by norm_num)]

theorem sqrt16 : Real.sqrt 16 = 4 := by
  rw [show (16 : ℝ) = 4 ^ 2 by norm_num, Real.sqrt_sq (by norm_num)]

theorem window_width_single : window_width singleWinPars = 4 := by
  unfold window_width get_size singleWinPars winShape4
  norm_num [Vec3_sub]

theorem num_windows_rect_long : num_windows (10 : ℝ) 4 2 1 = 1 := by
  norm_num [num_windows, cppInt]

theorem num_windows_rect_short : num_windows (4 : ℝ) 4 2 1 = 0 := by
  norm_num [num_windows]

theorem check_win_info_single :
    check_win_info (F := ℝ) singleWinPars = .ok () := by
  unfold check_win_info singleWinPars
  rw [if_neg (by simp)]

/-- Evaluation of the per-side window placement on a side of length 10 of
the C9 rectangle building (`n = 1`): the single window is placed at offset
`eps + w/2 = W/2 + w/2 = 7` along the side, not at the midpoint `5` (the
model evaluates the re-spread spacing `(W - 2*eps - n*w)/(n - 1) = 2/0`
with the field convention `x/0 = 0`; it is multiplied by `j = 0` anyway). -/
theorem rectBuilding_long_side_eval (p1 p2 : Vec2 ℝ)
    (hW : length2 realFns (p2 - p1) = 10) (wid : ℕ) (ws : List (Instance ℝ))
    (k : ℕ) :
    windows_for_side realFns rectBuilding 0 p1 p2
        ⟨wid, ws, ⟨fun _ => 1/2, k⟩⟩ =
      .ok ⟨wid + 1, ws ++
        [{ name := "wnd" ++ "_" ++ toString wid
           shp := winShape4
           mat := none
           frame :=
             { x := rotate_y realFns identity_frame.x (get_angle realFns (p2 - p1))
               y := identity_frame.y
               z := rotate_y realFns identity_frame.z (get_angle realFns (p2 - p1))
               o := to_3dPoint (p1 + normalize2 realFns (p2 - p1) * (7:ℝ)) (3/2) } }],
        ⟨fun _ => 1/2, k + 2⟩⟩ := by
  unfold windows_for_side
  dsimp only [rectBuilding]
  rw [hW, window_width_single]
  dsimp only [singleWinPars]
  rw [num_windows_rect_long]
  rw [if_neg (by norm_num)]
  rw [show Int.toNat 1 = 1 from rfl, show List.range 1 = [0] from rfl,
    List.foldlM_cons]
  simp only [List.foldlM_nil]
  unfold bernoulli next_rand1f
  dsimp only
  rw [if_neg (by norm_num : ¬((0:ℝ) < 0 ∨ (0:ℝ) > 1))]
  rw [decide_eq_true (by norm_num : (1:ℝ)/2 > 0)]
  simp only [except_bind_ok]
  norm_num [respread_spacing, bind_pure]

/-- Evaluation of the per-side window placement on a side of length 4 of
the C9 rectangle building: `w + 2*eps = 8 >= 4`, so the side fits no
window and is skipped. -/
theorem rectBuilding_short_side_eval (p1 p2 : Vec2 ℝ)
    (hW : length2 realFns (p2 - p1) = 4) (acc : WinAcc ℝ) :
    windows_for_side realFns rectBuilding 0 p1 p2 acc = .ok acc := by
  unfold windows_for_side
  dsimp only [rectBuilding]
  rw [hW, window_width_single]
  dsimp only [singleWinPars]
  rw [num_windows_rect_short]
  rw [if_pos le_rfl]

/-- C9: on a side where exactly one window fits (`n = 1`), the placed
window is **not** centered on the side: the code sets `eps = W/2` ("1
window is on the center") but then places the window at `eps + w/2`, i.e.
half a window width past the midpoint.  On the 10-by-4 rectangle building
with window width 4 (side length `W = 10`, slot count 1, filled), the
first placed window sits at horizontal position 7, while the side's
midpoint is at 5.  (In the exact model the re-spread divisor `n - 1 = 0`
is handled with `x/0 = 0` and is multiplied by `j = 0`; in C++ floats the
same expression makes the spacing infinite or NaN, so the source cannot
place the window at the midpoint either.) -/
theorem C9_single_window_not_centered :
    ∃ w1 rest r, make_windows realFns (fun b _ => [b]) rectBuilding
        halfStream = .ok (w1 :: rest, r) ∧
      w1.frame.o.x = 7 ∧
      ((rectBuilding.floor_border.getD 0 ⟨0, 0⟩ +
        rectBuilding.floor_border.getD 1 ⟨0, 0⟩) / (2 : ℝ)).x = 5 ∧
      (7 : ℝ) ≠ 5 := by
  have hW1 : length2 realFns ((⟨10, 0⟩ : Vec2 ℝ) - ⟨0, 0⟩) = 10 := by
    unfold length2
    rw [show realFns.sqrtF = Real.sqrt from rfl]
    norm_num [Vec2_sub, sqrt100]
  have hW2 : length2 realFns ((⟨10, 4⟩ : Vec2 ℝ) - ⟨10, 0⟩) = 4 := by
    unfold length2
    rw [show realFns.sqrtF = Real.sqrt from rfl]
    norm_num [Vec2_sub, sqrt16]
  have hW3 : length2 realFns ((⟨0, 4⟩ : Vec2 ℝ) - ⟨10, 4⟩) = 10 := by
    unfold length2
    rw [show realFns.sqrtF = Real.sqrt from rfl]
    norm_num [Vec2_sub, sqrt100]
  have hW4 : length2 realFns ((⟨0, 0⟩ : Vec2 ℝ) - ⟨0, 4⟩) = 4 := by
    unfold length2
    rw [show realFns.sqrtF = Real.sqrt from rfl]
    norm_num [Vec2_sub, sqrt16]
  unfold make_windows
  rw [show rectBuilding.win_pars = singleWinPars from rfl,
    check_win_info_single]
  simp only [except_bind_ok]
  rw [show rectBuilding.num_floors = 1 from rfl,
    show List.range 1 = [0] from rfl, List.foldlM_cons]
  simp only [List.foldlM_nil]
  rw [show windows_border_at_floor realFns (fun b _ => [b]) rectBuilding 0 =
    .ok [⟨0, 0⟩, ⟨10, 0⟩, ⟨10, 4⟩, ⟨0, 4⟩] from rfl]
  simp only [except_bind_ok]
  unfold for_sides
  rw [show ([⟨0, 0⟩, ⟨10, 0⟩, ⟨10, 4⟩, ⟨0, 4⟩] : List (Vec2 ℝ)).zip
      (([⟨0, 0⟩, ⟨10, 0⟩, ⟨10, 4⟩, ⟨0, 4⟩] : List (Vec2 ℝ)).rotate 1) =
      [(⟨0, 0⟩, ⟨10, 0⟩), (⟨10, 0⟩, ⟨10, 4⟩), (⟨10, 4⟩, ⟨0, 4⟩),
       (⟨0, 4⟩, ⟨0, 0⟩)] from by simp [List.rotate]]
  rw [show halfStream = ⟨fun _ => 1/2, 0⟩ from rfl]
  rw [List.foldlM_cons]
  dsimp only
  rw [rectBuilding_long_side_eval _ _ hW1]
  simp only [except_bind_ok]
  rw [List.foldlM_cons]
  dsimp only
  rw [rectBuilding_short_side_eval _ _ hW2]
  simp only [except_bind_ok]
  rw [List.foldlM_cons]
  dsimp only
  rw [rectBuilding_long_side_eval _ _ hW3]
  simp only [except_bind_ok]
  rw [List.foldlM_cons]
  dsimp only
  rw [rectBuilding_short_side_eval _ _ hW4]
  simp only [except_bind_ok, List.foldlM_nil]
  refine ⟨_, _, _, rfl, ?_, by norm_num [rectBuilding, Vec2_add, Vec2_div],
    by norm_num⟩
  unfold to_3dPoint normalize2 length2
  rw [show realFns.sqrtF = Real.sqrt from rfl]
  norm_num [Vec2_sub, Vec2_add, Vec2_smul, Vec2_div, sqrt100]

end rekt
